import Mathlib

/-!
The audio streaming layer of drumstick-rt-fluidlite.

A shallow embedding of `FluidRenderer` (src/fluidrenderer.cpp) and
`FluidController` (src/fluidcontroller.cpp).  Objects are records, member
functions are pure functions from a record to the updated record together with
the list of calls they make on the synthesis engine, on the Qt audio output and
on the Qt timers (the effect trace).  C++ `int` and `qint64` values are
mathematical integers, narrowed explicitly where the source narrows them.
-/

namespace FluidLite

/-! ## Machine integers -/

/-- Value of a mathematical integer after conversion to a 32-bit C++ `int`. -/
def toInt32 (x : Int) : Int := (x + 2147483648) % 4294967296 - 2147483648

/-- Value of a mathematical integer after conversion to a 64-bit `qint64`. -/
def toInt64 (x : Int) : Int :=
  (x + 9223372036854775808) % 18446744073709551616 - 9223372036854775808

/-- Largest `qint64`. -/
def INT64_MAX : Int := 9223372036854775807

/-- The C++ `sizeof(float)`. -/
def sizeofFloat : Int := 4

/-- The C++ `CHAR_BIT`. -/
def CHAR_BIT : Int := 8

/-- A C++ `double`, held as its IEEE 754 binary64 bit pattern.  The source
only stores and passes on `double` values; no arithmetic is done on them. -/
structure Double where
  bits : Nat
deriving DecidableEq, Repr

/-! ## Constants of `FluidController` (src/fluidcontroller.cpp, lines 28-51) -/

def QSTR_INSTRUMENTSDEFINITION : String := "InstrumentsDefinition"
def QSTR_AUDIODEV : String := "AudioDevice"
def QSTR_BUFFERTIME : String := "BufferTime"
def QSTR_SAMPLERATE : String := "SampleRate"
def QSTR_CHORUS : String := "Chorus"
def QSTR_REVERB : String := "Reverb"
def QSTR_GAIN : String := "Gain"
def QSTR_POLYPHONY : String := "Polyphony"

/-- The constant `DEFAULT_GAIN = 1.0`. -/
def DEFAULT_GAIN : Double := { bits := 0x3FF0000000000000 }

def DEFAULT_AUDIODEV : String := "default"
def DEFAULT_BUFFERTIME : Int := 100
def DEFAULT_CHORUS : Int := 0
def DEFAULT_REVERB : Int := 1
def DEFAULT_POLYPHONY : Int := 256
def DEFAULT_SAMPLERATE : Int := 44100
def DEFAULT_RENDERING_FRAMES : Int := 64
def DEFAULT_FRAME_CHANNELS : Int := 2

/-! ## Qt audio format (Qt 5 branch of the source) -/

/-- Sample types of `QAudioFormat`. -/
inductive SampleType where
  | Unknown
  | SignedInt
  | UnSignedInt
  | Float
deriving DecidableEq, Repr

/-- Byte orders of `QAudioFormat`. -/
inductive Endian where
  | BigEndian
  | LittleEndian
deriving DecidableEq, Repr

/-- The fields of a `QAudioFormat` that the source sets. -/
structure AudioFormat where
  sampleRate : Int
  channelCount : Int
  sampleSize : Int
  codec : String
  sampleType : SampleType
  byteOrder : Endian
deriving DecidableEq, Repr

/-- A default constructed `QAudioFormat`: every numeric field is -1, the codec
is empty and the sample type unknown. -/
def AudioFormat.null : AudioFormat :=
  { sampleRate := -1, channelCount := -1, sampleSize := -1, codec := "",
    sampleType := SampleType.Unknown, byteOrder := Endian.LittleEndian }

/-! ## Effects -/

/-- A byte of a `QByteArray`. -/
abbrev Byte := Fin 256

/-- States of a Qt audio output (`QAudio::State`). -/
inductive AudioState where
  | ActiveState
  | SuspendedState
  | StoppedState
  | IdleState
deriving DecidableEq, Repr

/-- Errors of a Qt audio output (`QAudio::Error`). -/
inductive AudioError where
  | NoError
  | OpenError
  | IOError
  | UnderrunError
  | FatalError
deriving DecidableEq, Repr

/-- Calls made on the collaborators: the FluidLite engine, the `QIODevice`
base of the renderer, the Qt audio output, the Qt timers, and the signals
emitted by the controller.  Engine objects are named by a handle; a null
pointer is `none`. -/
inductive Effect where
  /-- The call `new_fluid_settings()` returning the handle. -/
  | newSettings (h : Nat)
  /-- The call `new_fluid_synth(settings)` returning the pointer. -/
  | newSynth (settings : Option Nat) (result : Option Nat)
  /-- The call `fluid_synth_sfload(synth, path, 1)` returning the id. -/
  | sfload (synth : Option Nat) (path : String) (result : Int)
  /-- The call `delete_fluid_synth(synth)`. -/
  | deleteSynth (h : Nat)
  /-- The call `delete_fluid_settings(settings)`. -/
  | deleteSettings (h : Nat)
  /-- The call `fluid_synth_write_float(synth, len, buffer, loff, lincr, buffer, roff, rincr)`;
  `buffer` is the position of the pointer, counted in floats from `data`. -/
  | synthWriteFloat (synth : Option Nat) (len : Int) (buffer : Int)
      (loff lincr roff rincr : Int)
  /-- The call `fluid_synth_sysex(synth, d.constData(), d.length(), ...)`. -/
  | synthSysex (synth : Option Nat) (d : List Byte) (len : Int)
  /-- The call `QIODevice::open(ReadOnly | Unbuffered)`. -/
  | ioOpen
  /-- The call `QIODevice::close()`. -/
  | ioClose
  /-- The call `m_stallDetector.stop()`. -/
  | timerStop
  /-- The call `m_stallDetector.start(msec)`. -/
  | timerStart (msec : Int)
  /-- The call `QTimer::singleShot(msec, ...)`. -/
  | singleShot (msec : Int)
  /-- The statement `delete m_audioOutput` on a non-null pointer. -/
  | audioDelete
  /-- The expression `new QAudioOutput(device, format)`. -/
  | audioNew (device : String) (format : AudioFormat)
  /-- The call `m_audioOutput->setBufferSize(bytes)`. -/
  | audioSetBufferSize (bytes : Int)
  /-- The call `m_audioOutput->start(m_renderer)`. -/
  | audioStart
  /-- The call `m_audioOutput->stop()`. -/
  | audioStop
  /-- The signal `stallDetected()`. -/
  | stallDetected
  /-- The signal `underrunDetected()`. -/
  | underrunDetected
deriving DecidableEq, Repr

/-- Ways in which a member function does not return normally. -/
inductive Fault where
  /-- A `Q_ASSERT` failed (builds without `QT_NO_DEBUG`). -/
  | assertFailed
  /-- An integer division by zero. -/
  | divideByZero
  /-- A loop that does not terminate. -/
  | diverges
  /-- A member call through a null or deleted pointer. -/
  | badPointer
deriving DecidableEq, Repr

deriving instance DecidableEq for Except

/-! ## FluidRenderer -/

/-- The data members of `FluidRenderer` (src/fluidrenderer.h, lines 86-107)
together with the open flag of its `QIODevice` base.  Pointers to engine
objects are `Option` handles, `none` being `nullptr`.  The version string is
left out: no function below reads it. -/
structure FluidRenderer where
  m_diagnostics : List String
  m_status : Bool
  m_sampleRate : Int
  m_renderingFrames : Int
  m_channels : Int
  m_sample_size : Int
  m_gain : Double
  m_chorus : Int
  m_reverb : Int
  m_polyphony : Int
  m_settings : Option Nat
  m_synth : Option Nat
  m_sf2loaded : Bool
  m_soundFont : String
  m_sfid : Int
  m_lastBufferSize : Int
  m_format : AudioFormat
  isOpen : Bool
deriving DecidableEq, Repr

/-- The constructor `FluidRenderer::FluidRenderer` (lines 35-54). -/
def FluidRenderer.new : FluidRenderer :=
  { m_diagnostics := [],
    m_status := false,
    m_sampleRate := DEFAULT_SAMPLERATE,
    m_renderingFrames := DEFAULT_RENDERING_FRAMES,
    m_channels := DEFAULT_FRAME_CHANNELS,
    m_sample_size := sizeofFloat * CHAR_BIT,
    m_gain := DEFAULT_GAIN,
    m_chorus := DEFAULT_CHORUS,
    m_reverb := DEFAULT_REVERB,
    m_polyphony := DEFAULT_POLYPHONY,
    m_settings := none,
    m_synth := none,
    m_sf2loaded := false,
    m_soundFont := "",
    m_sfid := -1,
    m_lastBufferSize := 0,
    m_format := AudioFormat.null,
    isOpen := false }

/-- The loop of `FluidRenderer::readData` (lines 131-135): while `length > 0`
one render call at the current buffer position, then `length -= bufferBytes`
and `buffer += bufferSamples`.  The first argument bounds the number of
iterations; `none` means the bound was reached with `length` still positive. -/
def renderLoop (synth : Option Nat) (frames channels bufferSamples bufferBytes : Int) :
    Nat → Int → Int → Option (List Effect)
  | 0, length, _ => if length > 0 then none else some []
  | fuel + 1, length, buffer =>
    if length > 0 then
      (renderLoop synth frames channels bufferSamples bufferBytes fuel
        (length - bufferBytes) (buffer + bufferSamples)).map
        (fun rest => Effect.synthWriteFloat synth frames buffer 0 channels 1 channels :: rest)
    else some []

/-- The function `FluidRenderer::readData` (lines 121-140).  `qtDebug` tells
whether `Q_ASSERT` is compiled in.  The result is the renderer afterwards, the
returned `qint64` and the engine calls made.  The loop bound is `buflen`
iterations: each iteration takes `bufferBytes` off `length`, so a loop that is
still running after `buflen` iterations has `bufferBytes <= 0` and never ends. -/
def readData (qtDebug : Bool) (r : FluidRenderer) (maxlen : Int) :
    Except Fault (FluidRenderer × Int × List Effect) :=
  let bufferSamples : Int := toInt32 (r.m_renderingFrames * r.m_channels)
  let bufferBytes : Int := toInt64 (bufferSamples * sizeofFloat)
  if qtDebug && !(decide (bufferBytes > 0) && decide (bufferBytes ≤ maxlen)) then
    Except.error Fault.assertFailed
  else if bufferBytes = 0 then
    Except.error Fault.divideByZero
  else
    let buflen : Int := Int.tdiv maxlen bufferBytes * bufferBytes
    match renderLoop r.m_synth r.m_renderingFrames r.m_channels bufferSamples bufferBytes
        buflen.toNat buflen 0 with
    | none => Except.error Fault.diverges
    | some calls =>
      Except.ok ({ r with m_lastBufferSize := toInt32 buflen }, buflen, calls)

/-- The getter `FluidRenderer::lastBufferSize` (lines 317-320). -/
def lastBufferSize (r : FluidRenderer) : Int := r.m_lastBufferSize

/-- The function `FluidRenderer::resetLastBufferSize` (lines 322-325). -/
def resetLastBufferSize (r : FluidRenderer) : FluidRenderer :=
  { r with m_lastBufferSize := 0 }

/-- The getter `FluidRenderer::getStatus` (lines 355-358). -/
def getStatus (r : FluidRenderer) : Bool := r.m_status

/-! ### System exclusive messages -/

/-- The test `QByteArray::startsWith(char)`: false on an empty array. -/
def startsWith (d : List Byte) (c : Byte) : Bool :=
  match d with
  | [] => false
  | x :: _ => x == c

/-- The test `QByteArray::endsWith(char)`: false on an empty array. -/
def endsWith (d : List Byte) (c : Byte) : Bool :=
  match d.getLast? with
  | none => false
  | some x => x == c

/-- The call `QByteArray::remove(pos, len)`. -/
def remove (d : List Byte) (pos len : Nat) : List Byte :=
  d.take pos ++ d.drop (pos + len)

/-- The call `QByteArray::chop(n)`: removes `n` bytes from the end. -/
def chop (d : List Byte) (n : Nat) : List Byte :=
  d.take (d.length - n)

def START_SYSEX : Byte := 0xF0
def END_OF_SYSEX : Byte := 0xF7

/-- The function `FluidRenderer::sysex` (lines 230-243).  The argument is a
`const` reference that is copied into the local `d`; the result is the
caller's array after the call and the engine call made. -/
def sysex (r : FluidRenderer) (data : List Byte) : List Byte × List Effect :=
  let d := data
  let d := if startsWith d START_SYSEX then remove d 0 1 else d
  let d := if endsWith d END_OF_SYSEX then chop d 1 else d
  (data, [Effect.synthSysex r.m_synth d d.length])

/-! ### Life cycle of the renderer -/

/-- The FluidLite library as seen by the renderer: the next fresh object
handle, whether `new_fluid_synth` succeeds, and the id that
`fluid_synth_sfload` returns for a path (-1 when the load fails). -/
structure Engine where
  nextHandle : Nat
  synthAvailable : Bool
  sfloadResult : String → Int

/-- The function `FluidRenderer::uninitialize` (lines 56-70). -/
def FluidRenderer.uninitialize (r : FluidRenderer) : FluidRenderer × List Effect :=
  let (r, t1) :=
    match r.m_synth with
    | some h => ({ r with m_synth := none }, [Effect.deleteSynth h])
    | none => (r, [])
  let (r, t2) :=
    match r.m_settings with
    | some h => ({ r with m_settings := none }, [Effect.deleteSettings h])
    | none => (r, [])
  ({ r with m_status := false, m_diagnostics := [] }, t1 ++ t2)

/-- The function `FluidRenderer::initialize` (lines 72-113), Qt 5 branch.  The
calls that set the log function and the numeric settings are not recorded. -/
def FluidRenderer.initialize (e : Engine) (r : FluidRenderer) :
    FluidRenderer × Engine × List Effect :=
  let hs := e.nextHandle
  let e := { e with nextHandle := e.nextHandle + 1 }
  let r := { r with m_settings := some hs }
  let synth : Option Nat := if e.synthAvailable then some e.nextHandle else none
  let e := if e.synthAvailable then { e with nextHandle := e.nextHandle + 1 } else e
  let r := { r with m_synth := synth }
  let (r, t) :=
    if r.m_soundFont ≠ "" then
      let sfid := e.sfloadResult r.m_soundFont
      ({ r with m_sfid := sfid, m_sf2loaded := decide (sfid ≠ -1) },
        [Effect.sfload r.m_synth r.m_soundFont sfid])
    else (r, [])
  let fmt : AudioFormat :=
    { r.m_format with
      sampleRate := r.m_sampleRate,
      channelCount := r.m_channels,
      sampleSize := r.m_sample_size,
      codec := "audio/pcm",
      sampleType := SampleType.Float,
      byteOrder := Endian.LittleEndian }
  let r := { r with m_format := fmt }
  let r := { r with m_status := decide (r.m_synth ≠ none) && decide (r.m_sfid ≥ 0) }
  (r, e, [Effect.newSettings hs, Effect.newSynth (some hs) synth] ++ t)

/-- The function `FluidRenderer::start` (lines 169-175). -/
def FluidRenderer.start (e : Engine) (r : FluidRenderer) :
    FluidRenderer × Engine × List Effect :=
  let (r, e, t) := FluidRenderer.initialize e r
  ({ r with isOpen := true }, e, t ++ [Effect.ioOpen])

/-- The function `FluidRenderer::stop` (lines 177-185). -/
def FluidRenderer.stop (r : FluidRenderer) : FluidRenderer × List Effect :=
  let (r, t1) := if r.isOpen then ({ r with isOpen := false }, [Effect.ioClose]) else (r, [])
  let (r, t2) := FluidRenderer.uninitialize r
  (r, t1 ++ t2)

/-- The function `FluidRenderer::setSoundFont` (lines 305-315). -/
def FluidRenderer.setSoundFont (e : Engine) (r : FluidRenderer) (fileName : String) :
    FluidRenderer × List Effect :=
  let r := { r with m_soundFont := fileName }
  if r.m_synth ≠ none then
    let result := e.sfloadResult fileName
    ({ r with m_sf2loaded := decide (result ≠ -1), m_sfid := result },
      [Effect.sfload r.m_synth fileName result])
  else (r, [])

/-! ## Qt collaborators of the controller (Qt 5 branch of the source)

These are library objects, not code of the repository; they are modelled by
the part of their documented behaviour that the controller relies on. -/

/-- The test `QAudioFormat::isValid`. -/
def AudioFormat.isValid (f : AudioFormat) : Bool :=
  decide (f.sampleRate ≠ -1) && decide (f.channelCount ≠ -1) && decide (f.sampleSize ≠ -1)
    && decide (f.sampleType ≠ SampleType.Unknown) && decide (f.codec ≠ "")

/-- The function `QAudioFormat::bytesPerFrame`. -/
def AudioFormat.bytesPerFrame (f : AudioFormat) : Int :=
  if f.isValid then Int.tdiv (f.sampleSize * f.channelCount) 8 else 0

/-- The function `QAudioFormat::framesForDuration` (microseconds to frames). -/
def AudioFormat.framesForDuration (f : AudioFormat) (duration : Int) : Int :=
  if f.isValid then toInt32 (Int.tdiv (duration * f.sampleRate) 1000000) else 0

/-- The function `QAudioFormat::bytesForDuration` (microseconds to bytes). -/
def AudioFormat.bytesForDuration (f : AudioFormat) (duration : Int) : Int :=
  toInt32 (f.bytesPerFrame * f.framesForDuration duration)

/-- The function `QAudioFormat::durationForBytes` (bytes to microseconds). -/
def AudioFormat.durationForBytes (f : AudioFormat) (bytes : Int) : Int :=
  if !f.isValid || decide (bytes ≤ 0) then 0
  else Int.tdiv (1000000 * Int.tdiv bytes f.bytesPerFrame) f.sampleRate

/-- A `QAudioDeviceInfo`: its name and the formats it supports. -/
structure Device where
  deviceName : String
  supported : List AudioFormat
deriving DecidableEq, Repr

/-- A default constructed (null) `QAudioDeviceInfo`: it supports no format. -/
def Device.null : Device := { deviceName := "", supported := [] }

/-- The test `QAudioDeviceInfo::isFormatSupported`. -/
def Device.isFormatSupported (d : Device) (f : AudioFormat) : Bool :=
  decide (f ∈ d.supported)

/-- The audio subsystem of the platform: the output devices in the order in
which `QAudioDeviceInfo::availableDevices` reports them, the default output
device, and the buffer size that a started output reports for a size that was
set before the start. -/
structure Platform where
  availableDevices : List Device
  defaultOutputDevice : Device
  acceptedBufferSize : Int → Int

/-- A `QAudioOutput` object. -/
structure AudioOutput where
  device : Device
  format : AudioFormat
  bufferSize : Int
  state : AudioState
  error : AudioError
deriving DecidableEq, Repr

/-- The raw pointer `QAudioOutput* m_audioOutput`: null, pointing to a live
object, or still holding the address of an object that was deleted. -/
inductive AudioPtr where
  | null
  | live (a : AudioOutput)
  | deleted
deriving DecidableEq, Repr

/-- The call `QMap::insert(key, value)`: keys are kept in ascending order and
a value stored under the same key is replaced. -/
def qmapInsert (k : String) (v : Device) : List (String × Device) → List (String × Device)
  | [] => [(k, v)]
  | (k1, v1) :: rest =>
    if k < k1 then (k, v) :: (k1, v1) :: rest
    else if k = k1 then (k, v) :: rest
    else (k1, v1) :: qmapInsert k v rest

/-- The call `QMap::contains(key)`. -/
def qmapContains (m : List (String × Device)) (k : String) : Bool :=
  m.any (fun kv => kv.1 == k)

/-- The call `QMap::value(key)`: a default constructed value for a missing key. -/
def qmapValue (m : List (String × Device)) (k : String) : Device :=
  match m.find? (fun kv => kv.1 == k) with
  | some kv => kv.2
  | none => Device.null

/-- The call `QMap::keys()`: the keys in ascending order. -/
def qmapKeys (m : List (String × Device)) : List String :=
  m.map (fun kv => kv.1)

/-! ## FluidController -/

/-- The data members of `FluidController` (src/fluidcontroller.h, lines
97-114).  `m_renderer` is created by the constructor and deleted by the
destructor only, so it is held by value.  `m_stallDetector` is the interval of
the timer while it is active.  `armPending` is not a member: it lists the
lambdas handed to `QTimer::singleShot` that have not fired yet, each with the
`bufferTime` it captured. -/
structure FluidController where
  m_renderer : FluidRenderer
  m_stallDetector : Option Int
  m_audioDeviceName : String
  m_requestedBufferTime : Int
  m_running : Bool
  m_format : AudioFormat
  m_audioOutput : AudioPtr
  m_availableDevices : List (String × Device)
  m_audioDevice : Device
  m_defSoundFont : String
  armPending : List Int
deriving DecidableEq, Repr

/-- The constructor `FluidController::FluidController` (lines 53-70). -/
def FluidController.new (bufTime : Int) : FluidController :=
  { m_renderer := FluidRenderer.new,
    m_stallDetector := none,
    m_audioDeviceName := DEFAULT_AUDIODEV,
    m_requestedBufferTime := bufTime,
    m_running := false,
    m_format := AudioFormat.null,
    m_audioOutput := AudioPtr.null,
    m_availableDevices := [],
    m_audioDevice := Device.null,
    m_defSoundFont := "",
    armPending := [] }

/-- The lambda connected to `m_stallDetector`'s `timeout` signal (lines
62-69): one tick of the stall detector. -/
def stallTick (c : FluidController) : FluidController × List Effect :=
  if c.m_running then
    let t := if lastBufferSize c.m_renderer = 0 then [Effect.stallDetected] else []
    ({ c with m_renderer := resetLastBufferSize c.m_renderer }, t)
  else (c, [])

/-- The function `FluidController::uninitialize` (lines 121-126). -/
def FluidController.uninitialize (c : FluidController) : FluidController × List Effect :=
  let (r, t1) := FluidRenderer.uninitialize c.m_renderer
  let (r, t2) := FluidRenderer.stop r
  ({ c with m_renderer := r }, t1 ++ t2)

/-- The function `FluidController::stop` (lines 105-119).  Reading the state
through a pointer to a deleted output is a fault. -/
def FluidController.stop (c : FluidController) : Except Fault (FluidController × List Effect) :=
  let c := { c with m_running := false }
  let c := { c with m_stallDetector := none }
  let audio : Except Fault (FluidController × List Effect) :=
    match c.m_audioOutput with
    | AudioPtr.null => Except.ok (c, [])
    | AudioPtr.deleted => Except.error Fault.badPointer
    | AudioPtr.live a =>
      if a.state ≠ AudioState.StoppedState then
        let a := { a with state := AudioState.StoppedState, error := AudioError.NoError }
        Except.ok ({ c with m_audioOutput := AudioPtr.live a }, [Effect.audioStop])
      else Except.ok (c, [])
  match audio with
  | Except.error f => Except.error f
  | Except.ok (c, t1) =>
    let (r, t2) := FluidRenderer.stop c.m_renderer
    let c := { c with m_renderer := r }
    let (c, t3) := FluidController.uninitialize c
    Except.ok (c, [Effect.timerStop] ++ t1 ++ t2 ++ t3)

/-- The body of the `foreach` loop of `initAudioDevices` (lines 182-187). -/
def FluidController.addDevice (c : FluidController) (dev : Device) : FluidController :=
  if dev.isFormatSupported c.m_format then
    { c with m_availableDevices := qmapInsert dev.deviceName dev c.m_availableDevices }
  else c

/-- The function `FluidController::initAudioDevices` (lines 174-200), Qt 5 branch. -/
def FluidController.initAudioDevices (p : Platform) (c : FluidController) : FluidController :=
  let c := { c with m_availableDevices := [] }
  let c := { c with m_audioDevice := p.defaultOutputDevice }
  p.availableDevices.foldl FluidController.addDevice c

/-- The function `FluidController::initAudio` (lines 144-172), Qt 5 branch.
A new output is stopped, has no error and no buffer size yet.  The lambda
connected to `stateChanged` emits `underrunDetected` only while `m_running`
holds and the output reports an underrun. -/
def FluidController.initAudio (c : FluidController) : FluidController × List Effect :=
  let (c, t1) :=
    match c.m_audioOutput with
    | AudioPtr.live _ => ({ c with m_audioOutput := AudioPtr.deleted }, [Effect.audioDelete])
    | _ => (c, [])
  let c :=
    if qmapContains c.m_availableDevices c.m_audioDeviceName then
      { c with m_audioDevice := qmapValue c.m_availableDevices c.m_audioDeviceName }
    else c
  if !c.m_audioDevice.isFormatSupported c.m_format then
    (c, t1)
  else
    let a : AudioOutput :=
      { device := c.m_audioDevice, format := c.m_format, bufferSize := 0,
        state := AudioState.StoppedState, error := AudioError.NoError }
    ({ c with m_audioOutput := AudioPtr.live a },
      t1 ++ [Effect.audioNew c.m_audioDevice.deviceName c.m_format])

/-- The function `FluidController::initialize` (lines 80-103).  The product
`m_requestedBufferTime * 1000` is an `int`; the delays handed to the timers
are narrowed to `int`.  A started output is active and reports the buffer size
the platform accepted. -/
def FluidController.initialize (p : Platform) (e : Engine) (c : FluidController) :
    Except Fault (FluidController × Engine × List Effect) :=
  let (r, e, t1) := FluidRenderer.initialize e c.m_renderer
  let (r, e, t2) := FluidRenderer.start e r
  let c := { c with m_renderer := r }
  let c := { c with m_format := c.m_renderer.m_format }
  let c := FluidController.initAudioDevices p c
  let (c, t3) := FluidController.initAudio c
  let bufferBytes := c.m_format.bytesForDuration (toInt32 (c.m_requestedBufferTime * 1000))
  match c.m_audioOutput with
  | AudioPtr.live a =>
    let a := { a with bufferSize := bufferBytes }
    let a := { a with state := AudioState.ActiveState, error := AudioError.NoError,
                      bufferSize := p.acceptedBufferSize a.bufferSize }
    let c := { c with m_audioOutput := AudioPtr.live a }
    let bufferTime := Int.tdiv (c.m_format.durationForBytes a.bufferSize) 1000
    let c := { c with armPending := c.armPending ++ [bufferTime] }
    Except.ok (c, e, t1 ++ t2 ++ t3 ++
      [Effect.audioSetBufferSize bufferBytes, Effect.audioStart,
       Effect.singleShot (toInt32 (bufferTime * 2))])
  | _ => Except.error Fault.badPointer

/-- The lambda handed to `QTimer::singleShot` by `initialize` (lines 99-102),
run when its delay has passed: the oldest pending one fires. -/
def armFired (c : FluidController) : FluidController × List Effect :=
  match c.armPending with
  | [] => (c, [])
  | bufferTime :: rest =>
    ({ c with armPending := rest, m_running := true,
              m_stallDetector := some (toInt32 (bufferTime * 4)) },
      [Effect.timerStart (toInt32 (bufferTime * 4))])

/-- The function `FluidController::availableAudioDevices` (lines 232-237). -/
def FluidController.availableAudioDevices (c : FluidController) : List String :=
  qmapKeys c.m_availableDevices

/-! ### Settings -/

/-- A `QVariant` holding an `int`, a `double` or a `QString`. -/
inductive QVariant where
  | int (n : Int)
  | double (d : Double)
  | string (s : String)
deriving DecidableEq, Repr

/-- Qt's conversions of a variant to a type other than the one it holds
(library code): what `toInt`, `toDouble` and `toString` return for it. -/
structure VariantConv where
  otherToInt : QVariant → Int
  otherToDouble : QVariant → Double
  otherToString : QVariant → String

/-- The call `QVariant::toInt()`. -/
def QVariant.toInt (q : VariantConv) : QVariant → Int
  | QVariant.int n => n
  | v => q.otherToInt v

/-- The call `QVariant::toDouble()`. -/
def QVariant.toDouble (q : VariantConv) : QVariant → Double
  | QVariant.double d => d
  | v => q.otherToDouble v

/-- The call `QVariant::toString()`. -/
def QVariant.toString (q : VariantConv) : QVariant → String
  | QVariant.string s => s
  | v => q.otherToString v

/-- The keys and values stored in the group `QSTR_PREFERENCES` of a `QSettings`. -/
abbrev QSettings := List (String × QVariant)

/-- The call `QSettings::value(key, defaultValue)`. -/
def QSettings.value (settings : QSettings) (key : String) (defaultValue : QVariant) : QVariant :=
  match settings.find? (fun kv => kv.1 == key) with
  | some kv => kv.2
  | none => defaultValue

/-- The function `FluidController::readSettings` (lines 239-268).  `sf2` is
the absolute path of the file `default.sf2` in the data directory when that
file exists. -/
def FluidController.readSettings (q : VariantConv) (sf2 : Option String)
    (settings : QSettings) (c : FluidController) : FluidController :=
  let c :=
    match sf2 with
    | some path => { c with m_defSoundFont := path }
    | none => c
  let soundFont :=
    (settings.value QSTR_INSTRUMENTSDEFINITION (QVariant.string c.m_defSoundFont)).toString q
  let c := { c with m_renderer := { c.m_renderer with m_soundFont := soundFont } }
  let bufferTime := (settings.value QSTR_BUFFERTIME (QVariant.int DEFAULT_BUFFERTIME)).toInt q
  let c := { c with m_requestedBufferTime := bufferTime }
  let chorus := (settings.value QSTR_CHORUS (QVariant.int DEFAULT_CHORUS)).toInt q
  let c := { c with m_renderer := { c.m_renderer with m_chorus := chorus } }
  let reverb := (settings.value QSTR_REVERB (QVariant.int DEFAULT_REVERB)).toInt q
  let c := { c with m_renderer := { c.m_renderer with m_reverb := reverb } }
  let gain := (settings.value QSTR_GAIN (QVariant.double DEFAULT_GAIN)).toDouble q
  let c := { c with m_renderer := { c.m_renderer with m_gain := gain } }
  let polyphony := (settings.value QSTR_POLYPHONY (QVariant.int DEFAULT_POLYPHONY)).toInt q
  let c := { c with m_renderer := { c.m_renderer with m_polyphony := polyphony } }
  let name := (settings.value QSTR_AUDIODEV (QVariant.string DEFAULT_AUDIODEV)).toString q
  { c with m_audioDeviceName := name }

/-- The function `FluidliteOutput::initialize(QSettings*)`
(src/fluidliteoutput.cpp, lines 53-59): `readSettings`, then `stop()`, then
`start()`, which calls `FluidController::initialize`. -/
def backendInitialize (q : VariantConv) (sf2 : Option String) (settings : QSettings)
    (p : Platform) (e : Engine) (c : FluidController) :
    Except Fault (FluidController × Engine × List Effect) :=
  let c := FluidController.readSettings q sf2 settings c
  match FluidController.stop c with
  | Except.error f => Except.error f
  | Except.ok (c, t1) =>
    match FluidController.initialize p e c with
    | Except.error f => Except.error f
    | Except.ok (c, e, t2) => Except.ok (c, e, t1 ++ t2)

/-! ### Events of the control context -/

/-- What can happen to a controller: a call of `initialize()`, a call of
`stop()`, the lambda handed to `QTimer::singleShot` firing, and a timeout of
the stall timer. -/
inductive Event where
  | init
  | stop
  | armFires
  | tick
deriving DecidableEq, Repr

/-- One event.  A timeout of the stall timer only happens while the timer is
active. -/
def step (p : Platform) (c : FluidController) (e : Engine) :
    Event → Except Fault (FluidController × Engine × List Effect)
  | Event.init => FluidController.initialize p e c
  | Event.stop =>
    match FluidController.stop c with
    | Except.error f => Except.error f
    | Except.ok (c1, t) => Except.ok (c1, e, t)
  | Event.armFires =>
    let (c1, t) := armFired c
    Except.ok (c1, e, t)
  | Event.tick =>
    if c.m_stallDetector ≠ none then
      let (c1, t) := stallTick c
      Except.ok (c1, e, t)
    else Except.ok (c, e, [])

/-- A sequence of events, with the calls made by all of them. -/
def run (p : Platform) (c : FluidController) (e : Engine) :
    List Event → Except Fault (FluidController × Engine × List Effect)
  | [] => Except.ok (c, e, [])
  | ev :: rest =>
    match step p c e ev with
    | Except.error f => Except.error f
    | Except.ok (c1, e1, t1) =>
      match run p c1 e1 rest with
      | Except.error f => Except.error f
      | Except.ok (c2, e2, t2) => Except.ok (c2, e2, t1 ++ t2)

/-! ### The format and the output opened by `initialize` -/

/-- The format that `FluidRenderer::initialize` (lines 100-107) builds from
the members of the renderer. -/
def rendererFormat (r : FluidRenderer) : AudioFormat :=
  { sampleRate := r.m_sampleRate, channelCount := r.m_channels, sampleSize := r.m_sample_size,
    codec := "audio/pcm", sampleType := SampleType.Float, byteOrder := Endian.LittleEndian }

/-- The first part of `FluidController::initialize` (lines 84-88): up to and
including the call of `initAudio`. -/
def FluidController.openOutput (p : Platform) (e : Engine) (c : FluidController) :
    FluidController × Engine × List Effect :=
  let (r, e, t1) := FluidRenderer.initialize e c.m_renderer
  let (r, e, t2) := FluidRenderer.start e r
  let c := { c with m_renderer := r }
  let c := { c with m_format := c.m_renderer.m_format }
  let c := FluidController.initAudioDevices p c
  let (c, t3) := FluidController.initAudio c
  (c, e, t1 ++ t2 ++ t3)

/-- The second part of `FluidController::initialize` (lines 89-102), from the
computation of the buffer size on, given the state, the engine and the calls
made by the first part. -/
def FluidController.startOutput (p : Platform) (x : FluidController × Engine × List Effect) :
    Except Fault (FluidController × Engine × List Effect) :=
  let c := x.1
  let bufferBytes := c.m_format.bytesForDuration (toInt32 (c.m_requestedBufferTime * 1000))
  match c.m_audioOutput with
  | AudioPtr.live a =>
    let a := { a with bufferSize := bufferBytes }
    let a := { a with state := AudioState.ActiveState, error := AudioError.NoError,
                      bufferSize := p.acceptedBufferSize a.bufferSize }
    let c := { c with m_audioOutput := AudioPtr.live a }
    let bufferTime := Int.tdiv (c.m_format.durationForBytes a.bufferSize) 1000
    let c := { c with armPending := c.armPending ++ [bufferTime] }
    Except.ok (c, x.2.1, x.2.2 ++
      [Effect.audioSetBufferSize bufferBytes, Effect.audioStart,
       Effect.singleShot (toInt32 (bufferTime * 2))])
  | _ => Except.error Fault.badPointer

/-- Device resolution: `initAudioDevices` followed by `initAudio`. -/
def resolveDevice (p : Platform) (c : FluidController) : FluidController × List Effect :=
  FluidController.initAudio ( FluidController.initAudioDevices p c)

/-- Whether the pointer holds a live output on the given device and format
that has not been started. -/
def AudioPtr.isNewOn (ptr : AudioPtr) (d : Device) (f : AudioFormat) : Bool :=
  match ptr with
  | AudioPtr.live a =>
    decide (a = { device := d, format := f, bufferSize := 0,
                  state := AudioState.StoppedState, error := AudioError.NoError })
  | _ => false

/-! ## Scenarios -/

/-- The render calls of a pull of `n` quanta by a renderer with the default
frame and channel counts: call `k` is made with the buffer pointer `128 * k`
floats after `data`. -/
def quantumCalls (synth : Option Nat) (n : Nat) : List Effect :=
  (List.range n).map (fun (k : Nat) => Effect.synthWriteFloat synth 64 (128 * (k : Int)) 0 2 1 2)

/-- The 32-bit float stereo PCM format at 44100 Hz. -/
def pcmFloat44100 : AudioFormat :=
  { sampleRate := 44100, channelCount := 2, sampleSize := 32, codec := "audio/pcm",
    sampleType := SampleType.Float, byteOrder := Endian.LittleEndian }

/-- A platform with one output device, which is also the default one; a
started output reports the buffer size that was set. -/
def onePlatform : Platform :=
  { availableDevices := [{ deviceName := "default", supported := [pcmFloat44100] }],
    defaultOutputDevice := { deviceName := "default", supported := [pcmFloat44100] },
    acceptedBufferSize := fun n => n }

/-- An engine in which every creation and every soundfont load succeeds. -/
def goodEngine : Engine :=
  { nextHandle := 0, synthAvailable := true, sfloadResult := fun _ => 1 }

/-- A controller in which the renderer's counter holds `counter` and
`m_running` is `running`; everything else is as the constructor leaves it. -/
def controllerWith (running : Bool) (counter : Int) : FluidController :=
  let r : FluidRenderer := { FluidRenderer.new with m_lastBufferSize := counter }
  let c : FluidController := { FluidController.new 100 with m_renderer := r }
  { c with m_running := running }

/-- A started audio output on the default device of `onePlatform`. -/
def activeOutput : AudioOutput :=
  { device := onePlatform.defaultOutputDevice, format := pcmFloat44100, bufferSize := 35280,
    state := AudioState.ActiveState, error := AudioError.NoError }

/-- A running controller: its renderer is open and holds engine objects, its
audio output is active and its stall timer runs. -/
def runningController : FluidController :=
  let r : FluidRenderer :=
    { FluidRenderer.new with m_settings := some 2, m_synth := some 3, isOpen := true,
                             m_format := pcmFloat44100 }
  let c : FluidController := { FluidController.new 100 with m_renderer := r }
  let c : FluidController := { c with m_audioOutput := AudioPtr.live activeOutput }
  { c with m_running := true, m_stallDetector := some 400, m_format := pcmFloat44100 }

/-- A controller that holds the format `pcmFloat44100` and the configured
device name `name`; everything else is as the constructor leaves it. -/
def controllerNamed (name : String) : FluidController :=
  let c : FluidController := { FluidController.new 100 with m_format := pcmFloat44100 }
  { c with m_audioDeviceName := name }

/-- A platform without any output device: the default device is a null one. -/
def noDevicePlatform : Platform :=
  { availableDevices := [], defaultOutputDevice := Device.null,
    acceptedBufferSize := fun n => n }

/-- A platform that reports the devices "pulse" and "alsa", in this order,
both supporting the format; "pulse" is the default one. -/
def twoDevicePlatform : Platform :=
  { availableDevices := [{ deviceName := "pulse", supported := [pcmFloat44100] },
                         { deviceName := "alsa", supported := [pcmFloat44100] }],
    defaultOutputDevice := { deviceName := "pulse", supported := [pcmFloat44100] },
    acceptedBufferSize := fun n => n }

/-- A platform on which the device "alsa" supports the format and the default
device "hdmi" does not. -/
def weakDefaultPlatform : Platform :=
  { availableDevices := [{ deviceName := "alsa", supported := [pcmFloat44100] },
                         { deviceName := "hdmi", supported := [] }],
    defaultOutputDevice := { deviceName := "hdmi", supported := [] },
    acceptedBufferSize := fun n => n }

/-- A platform like `onePlatform` whose output always reports a buffer of
32768 bytes, whatever size was set. -/
def fixedBufferPlatform : Platform :=
  { availableDevices := onePlatform.availableDevices,
    defaultOutputDevice := onePlatform.defaultOutputDevice,
    acceptedBufferSize := fun _ => 32768 }

/-- Conversions that give 0, 0.0 and the empty string for every variant of
another type. -/
def zeroConv : VariantConv :=
  { otherToInt := fun _ => 0, otherToDouble := fun _ => { bits := 0 },
    otherToString := fun _ => "" }

/-- An engine in which every soundfont load fails. -/
def failingLoadEngine : Engine :=
  { nextHandle := 0, synthAvailable := true, sfloadResult := fun _ => -1 }

/-- The byte size `Q` of one render quantum for the default frame and channel
counts: 64 frames of 2 channels of 4-byte floats. -/
def quantumBytes : Int := DEFAULT_RENDERING_FRAMES * DEFAULT_FRAME_CHANNELS * sizeofFloat

/-- Whether a result is a normal return. -/
def returns {α : Type} (x : Except Fault α) : Bool :=
  match x with
  | Except.ok _ => true
  | Except.error _ => false

/-- The positions, counted in floats from `data`, that a call of
`fluid_synth_write_float(synth, len, lout, loff, lincr, rout, roff, rincr)`
writes (FluidLite's contract for the call): sample `i` of the left channel
goes to `lout[loff + i * lincr]` and sample `i` of the right channel to
`rout[roff + i * rincr]`, for `i` from 0 to `len - 1`.  Other calls write
nothing. -/
def writtenFloats : Effect → List Int
  | Effect.synthWriteFloat _ len buffer loff lincr roff rincr =>
    (List.range len.toNat).map (fun (i : Nat) => buffer + loff + (i : Int) * lincr)
      ++ (List.range len.toNat).map (fun (i : Nat) => buffer + roff + (i : Int) * rincr)
  | _ => []

/-- Whether a call writes the byte at offset `b` from `data`: the byte
belongs to the float at position `b / sizeof(float)`. -/
def writesByte (call : Effect) (b : Int) : Prop :=
  b / sizeofFloat ∈ writtenFloats call

/-- The handles of the engine objects created by the calls of a trace, in
order. -/
def createdHandles : List Effect → List Nat
  | [] => []
  | Effect.newSettings h :: rest => h :: createdHandles rest
  | Effect.newSynth _ (some h) :: rest => h :: createdHandles rest
  | _ :: rest => createdHandles rest

/-- The handles of the engine objects deleted by the calls of a trace, in
order. -/
def deletedHandles : List Effect → List Nat
  | [] => []
  | Effect.deleteSynth h :: rest => h :: deletedHandles rest
  | Effect.deleteSettings h :: rest => h :: deletedHandles rest
  | _ :: rest => deletedHandles rest

/-- The number of `new_fluid_settings` calls in a trace. -/
def settingsCreations (t : List Effect) : Nat :=
  (t.filter (fun x => match x with | Effect.newSettings _ => true | _ => false)).length

/-- The number of `new_fluid_synth` calls in a trace. -/
def synthCreations (t : List Effect) : Nat :=
  (t.filter (fun x => match x with | Effect.newSynth _ _ => true | _ => false)).length

/-- Settings that hold the soundfont path `path` and nothing else. -/
def soundFontSettings (path : String) : QSettings :=
  [(QSTR_INSTRUMENTSDEFINITION, QVariant.string path)]

/-- Two calls of `FluidliteOutput::initialize(QSettings*)` in a row, the first
with the settings `s1` and the second with the settings `s2`; the result is
that of the second call. -/
def reconfigure (q : VariantConv) (s1 s2 : QSettings) (p : Platform) (e : Engine)
    (c : FluidController) : Except Fault (FluidController × Engine × List Effect) :=
  match backendInitialize q none s1 p e c with
  | Except.error f => Except.error f
  | Except.ok (c1, e1, _) => backendInitialize q none s2 p e1 c1

/-- An engine in which `new_fluid_synth` fails: it returns a null pointer. -/
def noSynthEngine : Engine :=
  { nextHandle := 0, synthAvailable := false, sfloadResult := fun _ => -1 }

/-- What can happen to a controller and its renderer: an event of the control
context, or the audio output pulling `len` bytes from the renderer. -/
inductive Action where
  | event (ev : Event)
  | pull (len : Int)
deriving DecidableEq, Repr

/-- One action.  A pull reaches `readData` only while the renderer is open
(`QIODevice::read` returns -1 on a device that is not open); it changes the
renderer and nothing else. -/
def act (qtDebug : Bool) (p : Platform) (c : FluidController) (e : Engine) :
    Action → Except Fault (FluidController × Engine × List Effect)
  | Action.event ev => step p c e ev
  | Action.pull len =>
    if c.m_renderer.isOpen then
      match readData qtDebug c.m_renderer len with
      | Except.error f => Except.error f
      | Except.ok (r1, _, calls) => Except.ok ({ c with m_renderer := r1 }, e, calls)
    else Except.ok (c, e, [])

/-- A sequence of actions, with the calls made by all of them. -/
def runActions (qtDebug : Bool) (p : Platform) (c : FluidController) (e : Engine) :
    List Action → Except Fault (FluidController × Engine × List Effect)
  | [] => Except.ok (c, e, [])
  | a :: rest =>
    match act qtDebug p c e a with
    | Except.error f => Except.error f
    | Except.ok (c1, e1, t1) =>
      match runActions qtDebug p c1 e1 rest with
      | Except.error f => Except.error f
      | Except.ok (c2, e2, t2) => Except.ok (c2, e2, t1 ++ t2)

/-- The controller constructed with 100 ms on `onePlatform` after
`initialize()`, the arming lambda firing and a pull of 1024 bytes. -/
def pulledController : FluidController :=
  let r : FluidRenderer :=
    { FluidRenderer.new with m_settings := some 2, m_synth := some 3, isOpen := true,
                             m_format := pcmFloat44100, m_lastBufferSize := 1024 }
  let c : FluidController := { FluidController.new 100 with m_renderer := r }
  let c : FluidController := { c with m_audioOutput := AudioPtr.live activeOutput }
  let c : FluidController :=
    { c with m_availableDevices := [("default", onePlatform.defaultOutputDevice)],
             m_audioDevice := onePlatform.defaultOutputDevice }
  { c with m_running := true, m_stallDetector := some 400, m_format := pcmFloat44100 }

/-! ## Lemmas on the render loop -/

theorem renderLoop_quanta (synth : Option Nat) (frames channels bs bb : Int) (hbb : 0 < bb) :
    ∀ (n fuel : Nat) (buffer : Int), n ≤ fuel →
      renderLoop synth frames channels bs bb fuel ((n : Int) * bb) buffer =
        some ((List.range n).map
          (fun (k : Nat) =>
            Effect.synthWriteFloat synth frames (buffer + (k : Int) * bs) 0 channels 1 channels)) := by
  intro n
  induction n with
  | zero =>
    intro fuel buffer _
    cases fuel <;> simp [renderLoop]
  | succ n ih =>
    intro fuel buffer hle
    cases fuel with
    | zero => omega
    | succ fuel =>
      have hpos : 0 < ((n + 1 : Nat) : Int) * bb := by positivity
      have hsub : ((n + 1 : Nat) : Int) * bb - bb = (n : Int) * bb := by push_cast; ring
      rw [renderLoop, if_pos hpos, hsub, ih fuel (buffer + bs) (by omega)]
      simp only [Option.map_some', List.range_succ_eq_map, List.map_cons, List.map_map]
      congr 2
      · simp
      · apply List.map_congr_left
        intro k _
        simp only [Function.comp]
        congr 1
        push_cast
        ring

theorem toInt32_quantum : toInt32 (64 * 2) = 128 := by decide

theorem toInt64_quantum : toInt64 (128 * sizeofFloat) = 512 := by decide

/-- The result of `readData` for the default frame and channel counts on a
non-negative length that passes the assertion when it is compiled in. -/
theorem readData_default (qtDebug : Bool) (r : FluidRenderer) (maxlen : Int)
    (hf : r.m_renderingFrames = DEFAULT_RENDERING_FRAMES)
    (hc : r.m_channels = DEFAULT_FRAME_CHANNELS)
    (h0 : 0 ≤ maxlen) (hd : qtDebug = true → 512 ≤ maxlen) :
    readData qtDebug r maxlen =
      Except.ok ({ r with m_lastBufferSize := toInt32 (maxlen / 512 * 512) },
        maxlen / 512 * 512, quantumCalls r.m_synth (maxlen / 512).toNat) := by
  have hq : 0 ≤ maxlen / 512 := Int.ediv_nonneg h0 (by norm_num)
  have hn : ((maxlen / 512).toNat : Int) = maxlen / 512 := Int.toNat_of_nonneg hq
  have htd : Int.tdiv maxlen 512 = maxlen / 512 := Int.tdiv_eq_ediv h0 (by norm_num)
  have hloop := renderLoop_quanta r.m_synth 64 2 128 512 (by norm_num)
    (maxlen / 512).toNat (maxlen / 512 * 512).toNat 0 (by omega)
  rw [hn] at hloop
  have hassert : (qtDebug && !(decide ((512 : Int) > 0) && decide ((512 : Int) ≤ maxlen))) = false := by
    cases qtDebug with
    | false => rfl
    | true => simp [hd rfl]
  unfold readData
  simp only [hf, hc, DEFAULT_RENDERING_FRAMES, DEFAULT_FRAME_CHANNELS, toInt32_quantum,
    toInt64_quantum, hassert, htd, hloop]
  simp [quantumCalls, mul_comm]

/-! ## Lemmas on `initialize` -/

theorem foldl_addDevice_bufTime (ds : List Device) (b : Int) :
    ∀ c : FluidController,
      ds.foldl FluidController.addDevice { c with m_requestedBufferTime := b }
        = { ds.foldl FluidController.addDevice c with m_requestedBufferTime := b } := by
  induction ds with
  | nil => intro c; rfl
  | cons d ds ih =>
    intro c
    simp only [List.foldl_cons]
    rw [← ih]
    congr 1
    unfold FluidController.addDevice
    by_cases h : d.isFormatSupported c.m_format = true <;> simp [h]

theorem initAudioDevices_bufTime (p : Platform) (c : FluidController) (b : Int) :
    FluidController.initAudioDevices p { c with m_requestedBufferTime := b }
      = { FluidController.initAudioDevices p c with m_requestedBufferTime := b } := by
  unfold FluidController.initAudioDevices
  exact foldl_addDevice_bufTime p.availableDevices b
    { ({ c with m_availableDevices := [] } : FluidController) with
      m_audioDevice := p.defaultOutputDevice }

theorem initAudio_bufTime (c : FluidController) (b : Int) :
    FluidController.initAudio { c with m_requestedBufferTime := b }
      = ({ (FluidController.initAudio c).1 with m_requestedBufferTime := b },
          (FluidController.initAudio c).2) := by
  rcases c with ⟨r, sd, name, rbt, run, fmt, ptr, avail, dev, dsf, arm⟩
  cases ptr <;> by_cases h1 : qmapContains avail name = true <;>
    simp only [FluidController.initAudio, h1] <;> split_ifs <;> rfl

/-- Whether `initialize` returns normally does not depend on the requested
buffer time. -/
theorem initialize_returns_bufTime (p : Platform) (e : Engine) (c : FluidController) (b : Int) :
    returns ( FluidController.initialize p e { c with m_requestedBufferTime := b })
        = returns ( FluidController.initialize p e c) := by
  have h := initAudio_bufTime (FluidController.initAudioDevices p
    { ({ c with m_renderer := (FluidRenderer.start ( FluidRenderer.initialize e c.m_renderer).2.1
          ( FluidRenderer.initialize e c.m_renderer).1).1 } : FluidController) with
      m_format := (FluidRenderer.start ( FluidRenderer.initialize e c.m_renderer).2.1
          ( FluidRenderer.initialize e c.m_renderer).1).1.m_format }) b
  rw [← initAudioDevices_bufTime] at h
  simp only [ FluidController.initialize]
  simp only [] at h
  rw [h]
  generalize FluidController.initAudio _ = Y
  rcases Y with ⟨⟨r, sd, name, rbt, run, fmt, ptr, avail, dev, dsf, arm⟩, t⟩
  cases ptr <;> rfl

/-! ## The pull bridge: `readData` -/

/-- C1: for every requested length L >= Q, where Q = 64 * 2 * 4 = 512,
`readData(data, L)` returns exactly floor(L / Q) * Q; the result is at most L,
is a multiple of Q, and is less than Q below L. -/
theorem readData_returns_whole_quanta (qtDebug : Bool) (r : FluidRenderer) (L : Int)
    (hf : r.m_renderingFrames = DEFAULT_RENDERING_FRAMES)
    (hc : r.m_channels = DEFAULT_FRAME_CHANNELS)
    (hL : quantumBytes ≤ L) :
    quantumBytes = 512
    ∧ Except.map (fun x => x.2.1) (readData qtDebug r L)
        = Except.ok (L / quantumBytes * quantumBytes)
    ∧ L / quantumBytes * quantumBytes ≤ L
    ∧ quantumBytes ∣ L / quantumBytes * quantumBytes
    ∧ L - L / quantumBytes * quantumBytes < quantumBytes := by
  have hQ : quantumBytes = 512 := by decide
  rw [hQ] at hL ⊢
  refine ⟨rfl, ?_, ?_, ?_, ?_⟩
  · rw [readData_default qtDebug r L hf hc (by omega) (fun _ => hL)]
    rfl
  · exact Int.ediv_mul_le L (by norm_num)
  · exact Dvd.intro_left _ rfl
  · have := Int.emod_lt_of_pos L (show (0 : Int) < 512 by norm_num)
    have h2 := Int.emod_add_ediv L 512
    omega

theorem readData_returns_whole_quanta_witness :
    FluidRenderer.new.m_renderingFrames = DEFAULT_RENDERING_FRAMES
    ∧ FluidRenderer.new.m_channels = DEFAULT_FRAME_CHANNELS
    ∧ quantumBytes ≤ 1030
    ∧ Except.map (fun x => x.2.1) (readData true FluidRenderer.new 1030)
        = Except.ok (1030 / quantumBytes * quantumBytes) :=
  ⟨rfl, rfl, by decide,
    (readData_returns_whole_quanta true FluidRenderer.new 1030 rfl rfl (by decide)).2.1⟩

/-- C3, as stated, fails: with a requested latency of 1 ms the buffer size
computed by `initialize` is 352 < 512 bytes, and `initialize` sets it and
starts the output without a fault; it is `readData`, called with 352, that
fails the assertion. -/
theorem initialize_accepts_buffer_below_quantum :
    Except.map (fun x => x.2.2)
        ( FluidController.initialize onePlatform goodEngine (FluidController.new 1))
      = Except.ok [Effect.newSettings 0, Effect.newSynth (some 0) (some 1),
          Effect.newSettings 2, Effect.newSynth (some 2) (some 3), Effect.ioOpen,
          Effect.audioNew "default" pcmFloat44100,
          Effect.audioSetBufferSize 352, Effect.audioStart, Effect.singleShot 0]
    ∧ readData true FluidRenderer.new 352 = Except.error Fault.assertFailed := by
  constructor
  · decide
  · decide

/-- C3, amended: `initialize` makes no check of the computed buffer size:
whether it returns normally does not depend on the requested latency.  The
precondition is checked at call time, by the assertion in `readData`: for
L < Q the call fails the assertion when it is compiled in, and otherwise, for
0 <= L < Q, returns 0 without a render call. -/
theorem short_buffer_checked_in_readData (p : Platform) (e : Engine) (c : FluidController)
    (bufTime : Int) (r : FluidRenderer) (L : Int)
    (hf : r.m_renderingFrames = DEFAULT_RENDERING_FRAMES)
    (hc : r.m_channels = DEFAULT_FRAME_CHANNELS)
    (hL : L < quantumBytes) :
    returns ( FluidController.initialize p e { c with m_requestedBufferTime := bufTime })
        = returns ( FluidController.initialize p e c)
    ∧ readData true r L = Except.error Fault.assertFailed
    ∧ (0 ≤ L → readData false r L = Except.ok ({ r with m_lastBufferSize := 0 }, 0, [])) := by
  have hQ : quantumBytes = 512 := by decide
  rw [hQ] at hL
  refine ⟨?_, ?_, ?_⟩
  · exact initialize_returns_bufTime p e c bufTime
  · unfold readData
    simp only [hf, hc, DEFAULT_RENDERING_FRAMES, DEFAULT_FRAME_CHANNELS, toInt32_quantum,
      toInt64_quantum]
    simp [not_le.mpr hL]
  · intro h0
    rw [readData_default false r L hf hc h0 (fun h => by cases h)]
    have hz : L / 512 = 0 := Int.ediv_eq_zero_of_lt h0 hL
    rw [hz]
    rfl

theorem short_buffer_checked_in_readData_witness :
    FluidRenderer.new.m_renderingFrames = DEFAULT_RENDERING_FRAMES
    ∧ FluidRenderer.new.m_channels = DEFAULT_FRAME_CHANNELS
    ∧ (352 : Int) < quantumBytes
    ∧ returns ( FluidController.initialize onePlatform goodEngine
          { FluidController.new 100 with m_requestedBufferTime := 1 })
        = returns ( FluidController.initialize onePlatform goodEngine (FluidController.new 100))
    ∧ readData true FluidRenderer.new 352 = Except.error Fault.assertFailed :=
  ⟨rfl, rfl, by decide,
    (short_buffer_checked_in_readData onePlatform goodEngine (FluidController.new 100) 1
      FluidRenderer.new 352 rfl rfl (by decide)).1,
    (short_buffer_checked_in_readData onePlatform goodEngine (FluidController.new 100) 1
      FluidRenderer.new 352 rfl rfl (by decide)).2.1⟩

/-! ## The stall detector -/

/-- C5: a stall-detector tick taken while `m_running` holds and the counter is
0 raises exactly one `stallDetected` and leaves the counter at 0; a tick taken
while `m_running` holds and the counter is not 0 raises none. -/
theorem stallTick_while_running (c : FluidController) (hr : c.m_running = true) :
    (lastBufferSize c.m_renderer = 0 →
      (stallTick c).2 = [Effect.stallDetected]
        ∧ lastBufferSize (stallTick c).1.m_renderer = 0)
    ∧ (lastBufferSize c.m_renderer ≠ 0 → (stallTick c).2 = []) := by
  unfold stallTick
  rw [if_pos hr]
  constructor
  · intro h0
    rw [if_pos h0]
    exact ⟨rfl, rfl⟩
  · intro h0
    rw [if_neg h0]

theorem stallTick_while_running_witness :
    (controllerWith true 0).m_running = true
    ∧ lastBufferSize (controllerWith true 0).m_renderer = 0
    ∧ (stallTick (controllerWith true 0)).2 = [Effect.stallDetected]
    ∧ lastBufferSize (stallTick (controllerWith true 0)).1.m_renderer = 0 :=
  ⟨rfl, rfl, (stallTick_while_running (controllerWith true 0) rfl).1 rfl⟩

theorem endsWith_concat (p : List Byte) (x : Byte) : endsWith (p ++ [x]) x = true := by
  simp [endsWith]

theorem chop_concat (p : List Byte) (x : Byte) : chop (p ++ [x]) 1 = p := by
  simp [chop]

/-- C8: for every byte sequence p, the empty one included, `sysex` applied to
0xF0 ++ p ++ 0xF7 forwards exactly p, with length |p|, to the engine; the
message [0xF0, 0x43, 0x12, 0xF7] is forwarded as [0x43, 0x12]. -/
theorem sysex_strips_framing (r : FluidRenderer) (p : List Byte) :
    (sysex r (0xF0 :: (p ++ [0xF7]))).2 = [Effect.synthSysex r.m_synth p p.length]
    ∧ (sysex r [0xF0, 0x43, 0x12, 0xF7]).2 = [Effect.synthSysex r.m_synth [0x43, 0x12] 2] := by
  have key : ∀ q : List Byte,
      (sysex r (0xF0 :: (q ++ [0xF7]))).2 = [Effect.synthSysex r.m_synth q q.length] := by
    intro q
    have h1 : startsWith (0xF0 :: (q ++ [0xF7])) START_SYSEX = true := by
      simp [startsWith, START_SYSEX]
    have h2 : remove (0xF0 :: (q ++ [0xF7])) 0 1 = q ++ [0xF7] := by
      simp [remove]
    have h3 : endsWith (q ++ [0xF7]) END_OF_SYSEX = true := endsWith_concat q 0xF7
    simp only [sysex, h1, h2, h3, if_true, chop_concat]
  exact ⟨key p, key [0x43, 0x12]⟩

/-- C9: for every byte sequence d that does not begin with 0xF0 and does not
end with 0xF7, `sysex` forwards d to the engine unchanged, with its length,
and the caller's array is d afterwards. -/
theorem sysex_unframed_unchanged (r : FluidRenderer) (d : List Byte)
    (h1 : d.head? ≠ some 0xF0) (h2 : d.getLast? ≠ some 0xF7) :
    sysex r d = (d, [Effect.synthSysex r.m_synth d d.length]) := by
  have hs : startsWith d START_SYSEX = false := by
    cases d with
    | nil => rfl
    | cons x xs =>
      simp only [startsWith, START_SYSEX]
      simp only [List.head?_cons, ne_eq, Option.some.injEq] at h1
      simpa using h1
  have he : endsWith d END_OF_SYSEX = false := by
    unfold endsWith
    cases hl : d.getLast? with
    | none => rfl
    | some x =>
      rw [hl] at h2
      simp only [ne_eq, Option.some.injEq] at h2
      simpa [END_OF_SYSEX] using h2
  simp [sysex, hs, he]

theorem sysex_unframed_unchanged_witness :
    ([0x43, 0x12] : List Byte).head? ≠ some 0xF0
    ∧ ([0x43, 0x12] : List Byte).getLast? ≠ some 0xF7
    ∧ sysex FluidRenderer.new [0x43, 0x12]
        = ([0x43, 0x12], [Effect.synthSysex FluidRenderer.new.m_synth [0x43, 0x12]
            ([0x43, 0x12] : List Byte).length]) :=
  ⟨by decide, by decide,
    sysex_unframed_unchanged FluidRenderer.new [0x43, 0x12] (by decide) (by decide)⟩

/-! ## Stopping the controller -/

/-- C10: `stop` is idempotent.  For every controller state whose audio output
exists, `stop()` returns, and a second `stop()` directly after it leaves the
state unchanged (not running, stall timer stopped, renderer closed, engine and
settings null); the only call the second `stop()` makes is the one that stops
the stall timer: no device stop, no deletion of the engine or its settings. -/
theorem stop_twice (c : FluidController) (a : AudioOutput)
    (h : c.m_audioOutput = AudioPtr.live a) :
    ∃ c1 t1, FluidController.stop c = Except.ok (c1, t1)
      ∧ FluidController.stop c1 = Except.ok (c1, [Effect.timerStop])
      ∧ c1.m_running = false ∧ c1.m_stallDetector = none
      ∧ c1.m_renderer.isOpen = false
      ∧ c1.m_renderer.m_synth = none ∧ c1.m_renderer.m_settings = none := by
  rcases c with ⟨r, sd, name, rbt, run, fmt, ptr, avail, dev, dsf, arm⟩
  rcases r with ⟨diag, status, rate, frames, channels, ssize, gain, chorus, reverb, poly,
    settings, synth, sf2, sf, sfid, last, rfmt, isopen⟩
  rcases a with ⟨adev, afmt, asize, astate, aerr⟩
  simp only at h
  subst h
  cases astate <;> cases settings <;> cases synth <;> cases isopen <;>
    exact ⟨_, _, rfl, rfl, rfl, rfl, rfl, rfl, rfl⟩

theorem stop_twice_witness :
    runningController.m_audioOutput = AudioPtr.live activeOutput
    ∧ ∃ c1 t1, FluidController.stop runningController = Except.ok (c1, t1)
      ∧ FluidController.stop c1 = Except.ok (c1, [Effect.timerStop])
      ∧ c1.m_running = false ∧ c1.m_stallDetector = none
      ∧ c1.m_renderer.isOpen = false
      ∧ c1.m_renderer.m_synth = none ∧ c1.m_renderer.m_settings = none :=
  ⟨rfl, stop_twice runningController activeOutput rfl⟩

/-! ## Lemmas on device enumeration -/

theorem foldl_addDevice_frame (ds : List Device) :
    ∀ c : FluidController,
      ds.foldl FluidController.addDevice c
        = { c with m_availableDevices := (ds.foldl FluidController.addDevice c).m_availableDevices } := by
  induction ds with
  | nil => intro c; rfl
  | cons d ds ih =>
    intro c
    simp only [List.foldl_cons]
    rw [ih]
    unfold FluidController.addDevice
    by_cases h : d.isFormatSupported c.m_format = true <;> simp [h]

/-- The function `initAudioDevices` changes the device map and the current
device only. -/
theorem initAudioDevices_frame (p : Platform) (c : FluidController) :
    FluidController.initAudioDevices p c
      = { c with m_availableDevices := (FluidController.initAudioDevices p c).m_availableDevices,
                 m_audioDevice := p.defaultOutputDevice } := by
  unfold FluidController.initAudioDevices
  rw [foldl_addDevice_frame]

theorem mem_qmapInsert (k : String) (v : Device) (m : List (String × Device))
    (kv : String × Device) (h : kv ∈ qmapInsert k v m) : kv = (k, v) ∨ kv ∈ m := by
  induction m with
  | nil => simpa [qmapInsert] using h
  | cons x xs ih =>
    obtain ⟨k1, v1⟩ := x
    unfold qmapInsert at h
    split_ifs at h with h1 h2
    · simp only [List.mem_cons] at h ⊢
      tauto
    · simp only [List.mem_cons] at h ⊢
      tauto
    · simp only [List.mem_cons] at h ⊢
      rcases h with h | h
      · tauto
      · rcases ih h with h | h <;> tauto

/-- Every entry of the device map built by the loop is a platform device that
supports the format, stored under its own name. -/
theorem foldl_addDevice_entries (all : List Device) (f : AudioFormat) (ds : List Device)
    (hds : ∀ d ∈ ds, d ∈ all) :
    ∀ c : FluidController, c.m_format = f →
      (∀ kv ∈ c.m_availableDevices,
        kv.2.isFormatSupported f = true ∧ kv.1 = kv.2.deviceName ∧ kv.2 ∈ all) →
      ∀ kv ∈ (ds.foldl FluidController.addDevice c).m_availableDevices,
        kv.2.isFormatSupported f = true ∧ kv.1 = kv.2.deviceName ∧ kv.2 ∈ all := by
  induction ds with
  | nil => intro c _ h; exact h
  | cons d ds ih =>
    intro c hf h
    simp only [List.foldl_cons]
    have hd : d ∈ all := hds d (List.mem_cons_self d ds)
    apply ih (fun x hx => hds x (List.mem_cons_of_mem d hx))
    · unfold FluidController.addDevice
      split_ifs <;> exact hf
    · intro kv hkv
      unfold FluidController.addDevice at hkv
      split_ifs at hkv with hs
      · rcases mem_qmapInsert _ _ _ _ hkv with h1 | h1
        · subst h1
          rw [hf] at hs
          exact ⟨hs, rfl, hd⟩
        · exact h kv h1
      · exact h kv hkv

theorem initAudioDevices_entries (p : Platform) (c : FluidController) :
    ∀ kv ∈ ( FluidController.initAudioDevices p c).m_availableDevices,
      kv.2.isFormatSupported c.m_format = true ∧ kv.1 = kv.2.deviceName
        ∧ kv.2 ∈ p.availableDevices := by
  unfold FluidController.initAudioDevices
  apply foldl_addDevice_entries p.availableDevices c.m_format p.availableDevices (fun _ h => h)
  · rfl
  · intro kv hkv
    cases hkv

theorem qmapValue_mem (m : List (String × Device)) (k : String)
    (h : qmapContains m k = true) : (k, qmapValue m k) ∈ m := by
  unfold qmapContains at h
  unfold qmapValue
  cases hf : m.find? (fun kv => kv.1 == k) with
  | none =>
    rw [List.find?_eq_none] at hf
    rw [List.any_eq_true] at h
    obtain ⟨x, hx, hxk⟩ := h
    exact absurd hxk (hf x hx)
  | some kv =>
    have h1 := List.find?_some hf
    have h2 := List.mem_of_find?_eq_some hf
    simp only [beq_iff_eq] at h1
    simp only
    rw [← h1]
    exact h2

theorem mem_qmapKeys_insert (k : String) (v : Device) (m : List (String × Device)) (n : String) :
    n ∈ qmapKeys (qmapInsert k v m) ↔ n = k ∨ n ∈ qmapKeys m := by
  induction m with
  | nil => simp [qmapInsert, qmapKeys]
  | cons x xs ih =>
    obtain ⟨k1, v1⟩ := x
    unfold qmapInsert
    unfold qmapKeys at ih ⊢
    split_ifs with h1 h2
    · simp
    · subst h2
      simp
    · simp only [List.map_cons, List.mem_cons, ih]
      tauto

theorem sorted_qmapInsert (k : String) (v : Device) (m : List (String × Device))
    (h : (qmapKeys m).Pairwise (· < ·)) : (qmapKeys (qmapInsert k v m)).Pairwise (· < ·) := by
  induction m with
  | nil => simp [qmapInsert, qmapKeys]
  | cons x xs ih =>
    obtain ⟨k1, v1⟩ := x
    have hx : ∀ n ∈ qmapKeys xs, k1 < n := (List.pairwise_cons.mp h).1
    have hxs : (qmapKeys xs).Pairwise (· < ·) := (List.pairwise_cons.mp h).2
    unfold qmapInsert
    split_ifs with h1 h2
    · refine List.pairwise_cons.mpr ⟨?_, h⟩
      intro n hn
      simp only [qmapKeys, List.map_cons, List.mem_cons] at hn
      rcases hn with hn | hn
      · rw [hn]; exact h1
      · exact lt_trans h1 (hx n (by simpa [qmapKeys] using hn))
    · subst h2
      exact h
    · refine List.pairwise_cons.mpr ⟨?_, ih hxs⟩
      intro n hn
      have hn2 : n ∈ qmapKeys (qmapInsert k v xs) := hn
      rw [mem_qmapKeys_insert] at hn2
      rcases hn2 with hn2 | hn2
      · rw [hn2]
        rcases lt_trichotomy k k1 with h3 | h3 | h3
        · exact absurd h3 h1
        · exact absurd h3 h2
        · exact h3
      · exact hx n hn2

/-! ## Lemmas on `initialize`, continued -/

theorem initialize_eq (p : Platform) (e : Engine) (c : FluidController) :
    FluidController.initialize p e c
      = FluidController.startOutput p ( FluidController.openOutput p e c) := rfl

theorem rendererInitialize_format (e : Engine) (r : FluidRenderer) :
    ( FluidRenderer.initialize e r).1.m_format = rendererFormat r
    ∧ ( FluidRenderer.initialize e r).1.m_sampleRate = r.m_sampleRate
    ∧ ( FluidRenderer.initialize e r).1.m_channels = r.m_channels
    ∧ ( FluidRenderer.initialize e r).1.m_sample_size = r.m_sample_size
    ∧ ( FluidRenderer.initialize e r).1.m_soundFont = r.m_soundFont
    ∧ ( FluidRenderer.initialize e r).2.1.sfloadResult = e.sfloadResult := by
  unfold FluidRenderer.initialize rendererFormat
  by_cases h : r.m_soundFont = "" <;> by_cases h2 : e.synthAvailable = true <;> simp [h, h2]

/-- The device that `initAudio` settles on: the one stored under the
configured name when there is one, else the current device. -/
theorem initAudio_device (c : FluidController) :
    ( FluidController.initAudio c).1.m_audioDevice
      = if qmapContains c.m_availableDevices c.m_audioDeviceName then
          qmapValue c.m_availableDevices c.m_audioDeviceName
        else c.m_audioDevice := by
  rcases c with ⟨r, sd, name, rbt, run, fmt, ptr, avail, dev, dsf, arm⟩
  cases ptr <;> by_cases h1 : qmapContains avail name = true <;>
    simp only [FluidController.initAudio, h1] <;> split_ifs <;> rfl

/-- The function `initAudio` changes the current device and the output only. -/
theorem initAudio_frame (c : FluidController) :
    ( FluidController.initAudio c).1
      = { c with m_audioDevice := ( FluidController.initAudio c).1.m_audioDevice,
                 m_audioOutput := ( FluidController.initAudio c).1.m_audioOutput } := by
  rcases c with ⟨r, sd, name, rbt, run, fmt, ptr, avail, dev, dsf, arm⟩
  cases ptr <;> by_cases h1 : qmapContains avail name = true <;>
    simp only [FluidController.initAudio, h1] <;> split_ifs <;> rfl

/-- The output after `initAudio`: a new one on the device settled on when that
device supports the format, and no new one otherwise. -/
theorem initAudio_output (c : FluidController) :
    (( FluidController.initAudio c).1.m_audioDevice.isFormatSupported c.m_format = true →
      ( FluidController.initAudio c).1.m_audioOutput
        = AudioPtr.live { device := ( FluidController.initAudio c).1.m_audioDevice,
                          format := c.m_format, bufferSize := 0,
                          state := AudioState.StoppedState, error := AudioError.NoError })
    ∧ (( FluidController.initAudio c).1.m_audioDevice.isFormatSupported c.m_format = false →
      ∀ d f, ( FluidController.initAudio c).1.m_audioOutput.isNewOn d f = false) := by
  rcases c with ⟨r, sd, name, rbt, run, fmt, ptr, avail, dev, dsf, arm⟩
  cases ptr <;> by_cases h1 : qmapContains avail name = true <;>
    simp only [FluidController.initAudio, h1] <;> split_ifs <;>
    simp_all [AudioPtr.isNewOn]

theorem qmapContains_iff (m : List (String × Device)) (k : String) :
    qmapContains m k = true ↔ k ∈ qmapKeys m := by
  simp only [qmapContains, qmapKeys, List.any_eq_true, List.mem_map, beq_iff_eq]

theorem addDevice_format (c : FluidController) (d : Device) :
    ( FluidController.addDevice c d).m_format = c.m_format := by
  unfold FluidController.addDevice
  split_ifs <;> rfl

/-- The keys of the device map built by the loop are the keys it started
with and the names of the devices that support the format; ascending order of
the keys is kept. -/
theorem foldl_addDevice_keys (f : AudioFormat) (ds : List Device) :
    ∀ c : FluidController, c.m_format = f →
      (∀ n, n ∈ qmapKeys (ds.foldl FluidController.addDevice c).m_availableDevices
        ↔ n ∈ qmapKeys c.m_availableDevices
          ∨ ∃ d ∈ ds, d.isFormatSupported f = true ∧ d.deviceName = n)
      ∧ ((qmapKeys c.m_availableDevices).Pairwise (· < ·) →
        (qmapKeys (ds.foldl FluidController.addDevice c).m_availableDevices).Pairwise (· < ·)) := by
  induction ds with
  | nil => intro c _; simp
  | cons d ds ih =>
    intro c hf
    simp only [List.foldl_cons]
    obtain ⟨ih1, ih2⟩ := ih ( FluidController.addDevice c d) ((addDevice_format c d).trans hf)
    constructor
    · intro n
      rw [ih1 n]
      unfold FluidController.addDevice
      rw [hf]
      by_cases hs : d.isFormatSupported f = true
      · simp only [hs, if_true, mem_qmapKeys_insert, List.mem_cons, exists_eq_or_imp]
        simp only [true_and]
        constructor
        · rintro ((h | h) | h)
          · exact Or.inr (Or.inl h.symm)
          · exact Or.inl h
          · exact Or.inr (Or.inr h)
        · rintro (h | h | h)
          · exact Or.inl (Or.inr h)
          · exact Or.inl (Or.inl h.symm)
          · exact Or.inr h
      · simp only [hs, List.mem_cons, exists_eq_or_imp]
        simp
    · intro hsorted
      apply ih2
      unfold FluidController.addDevice
      split_ifs
      · exact sorted_qmapInsert _ _ _ hsorted
      · exact hsorted

/-- The names listed after `initAudioDevices`: exactly the names of the
platform devices that support the format, in ascending order. -/
theorem initAudioDevices_keys (p : Platform) (c : FluidController) :
    (∀ n, n ∈ qmapKeys ( FluidController.initAudioDevices p c).m_availableDevices
      ↔ ∃ d ∈ p.availableDevices, d.isFormatSupported c.m_format = true ∧ d.deviceName = n)
    ∧ (qmapKeys ( FluidController.initAudioDevices p c).m_availableDevices).Pairwise (· < ·) := by
  unfold FluidController.initAudioDevices
  obtain ⟨h1, h2⟩ := foldl_addDevice_keys c.m_format p.availableDevices
    { ({ c with m_availableDevices := [] } : FluidController) with
      m_audioDevice := p.defaultOutputDevice } rfl
  constructor
  · intro n
    rw [h1 n]
    simp [qmapKeys]
  · exact h2 (by simp [qmapKeys])

theorem initAudioDevices_fields (p : Platform) (c : FluidController) :
    ( FluidController.initAudioDevices p c).m_format = c.m_format
    ∧ ( FluidController.initAudioDevices p c).m_audioDeviceName = c.m_audioDeviceName
    ∧ ( FluidController.initAudioDevices p c).m_audioDevice = p.defaultOutputDevice
    ∧ ( FluidController.initAudioDevices p c).m_requestedBufferTime = c.m_requestedBufferTime
    ∧ ( FluidController.initAudioDevices p c).armPending = c.armPending
    ∧ ( FluidController.initAudioDevices p c).m_renderer = c.m_renderer := by
  rw [initAudioDevices_frame]
  exact ⟨rfl, rfl, rfl, rfl, rfl, rfl⟩

/-! ## Device enumeration and resolution -/

/-- C17, as stated, fails: on a platform where "alsa" supports the format and
the default device "hdmi" does not, the candidate set is not empty, the name
"nonexistent" resolves to the default device, and no output is created. -/
theorem resolveDevice_fails_with_candidates :
    FluidController.availableAudioDevices
        ( FluidController.initAudioDevices weakDefaultPlatform (controllerNamed "nonexistent"))
      = ["alsa"]
    ∧ (resolveDevice weakDefaultPlatform (controllerNamed "nonexistent")).1.m_audioDevice
      = weakDefaultPlatform.defaultOutputDevice
    ∧ (resolveDevice weakDefaultPlatform (controllerNamed "nonexistent")).1.m_audioOutput
      = AudioPtr.null := by
  decide

/-- The outcome of device resolution, by whether the configured name is the
name of a platform device that supports the format. -/
theorem resolveDevice_cases (p : Platform) (c : FluidController) :
    ((∃ d ∈ p.availableDevices,
        d.isFormatSupported c.m_format = true ∧ d.deviceName = c.m_audioDeviceName) →
      ∃ d ∈ p.availableDevices,
        d.isFormatSupported c.m_format = true ∧ d.deviceName = c.m_audioDeviceName
        ∧ (resolveDevice p c).1.m_audioDevice = d
        ∧ (resolveDevice p c).1.m_audioOutput.isNewOn d c.m_format = true)
    ∧ ((¬ ∃ d ∈ p.availableDevices,
        d.isFormatSupported c.m_format = true ∧ d.deviceName = c.m_audioDeviceName) →
      (resolveDevice p c).1.m_audioDevice = p.defaultOutputDevice
      ∧ (resolveDevice p c).1.m_audioOutput.isNewOn p.defaultOutputDevice c.m_format
          = p.defaultOutputDevice.isFormatSupported c.m_format) := by
  obtain ⟨hfmt, hname, hdev, -, -, -⟩ := initAudioDevices_fields p c
  have hkeys := (initAudioDevices_keys p c).1 c.m_audioDeviceName
  have hdevice := initAudio_device ( FluidController.initAudioDevices p c)
  obtain ⟨hout1, hout2⟩ := initAudio_output ( FluidController.initAudioDevices p c)
  rw [hname] at hdevice
  rw [hfmt] at hout1 hout2
  unfold resolveDevice
  constructor
  · intro hex
    have hc : qmapContains ( FluidController.initAudioDevices p c).m_availableDevices
        c.m_audioDeviceName = true := (qmapContains_iff _ _).mpr (hkeys.mpr hex)
    rw [hc, if_pos rfl] at hdevice
    obtain ⟨hs, hn, hmem⟩ := initAudioDevices_entries p c _ (qmapValue_mem _ _ hc)
    simp only at hs hn hmem
    refine ⟨_, hmem, hs, hn.symm, hdevice, ?_⟩
    rw [hdevice] at hout1
    rw [hout1 hs]
    simp [AudioPtr.isNewOn]
  · intro hex
    have hc : qmapContains ( FluidController.initAudioDevices p c).m_availableDevices
        c.m_audioDeviceName = false := by
      rw [Bool.eq_false_iff]
      intro h
      exact hex (hkeys.mp ((qmapContains_iff _ _).mp h))
    rw [hc, hdev] at hdevice
    simp only [Bool.false_eq_true, if_false] at hdevice
    refine ⟨hdevice, ?_⟩
    rw [hdevice] at hout1 hout2
    cases hs : p.defaultOutputDevice.isFormatSupported c.m_format with
    | true =>
      rw [hout1 hs]
      simp [AudioPtr.isNewOn]
    | false => exact hout2 hs _ _

/-- C17, amended: a configured name that is the name of a platform device
supporting the format resolves to such a device, and a new output is created
on it.  Any other name resolves to the platform default device, whether or not
there are candidates, and a new output is created exactly when the default
device supports the format; otherwise `initAudio` returns without an output. -/
theorem resolveDevice_by_name_or_default (p : Platform) (c : FluidController) :
    ((∃ d ∈ p.availableDevices,
        d.isFormatSupported c.m_format = true ∧ d.deviceName = c.m_audioDeviceName) →
      ∃ d ∈ p.availableDevices,
        d.isFormatSupported c.m_format = true ∧ d.deviceName = c.m_audioDeviceName
        ∧ (resolveDevice p c).1.m_audioDevice = d
        ∧ (resolveDevice p c).1.m_audioOutput.isNewOn d c.m_format = true)
    ∧ ((¬ ∃ d ∈ p.availableDevices,
        d.isFormatSupported c.m_format = true ∧ d.deviceName = c.m_audioDeviceName) →
      (resolveDevice p c).1.m_audioDevice = p.defaultOutputDevice
      ∧ (resolveDevice p c).1.m_audioOutput.isNewOn p.defaultOutputDevice c.m_format
          = p.defaultOutputDevice.isFormatSupported c.m_format) :=
  resolveDevice_cases p c

theorem resolveDevice_by_name_or_default_witness :
    (∃ d ∈ twoDevicePlatform.availableDevices,
        d.isFormatSupported (controllerNamed "alsa").m_format = true
        ∧ d.deviceName = (controllerNamed "alsa").m_audioDeviceName)
    ∧ ∃ d ∈ twoDevicePlatform.availableDevices,
        d.isFormatSupported (controllerNamed "alsa").m_format = true
        ∧ d.deviceName = (controllerNamed "alsa").m_audioDeviceName
        ∧ (resolveDevice twoDevicePlatform (controllerNamed "alsa")).1.m_audioDevice = d
        ∧ (resolveDevice twoDevicePlatform (controllerNamed "alsa")).1.m_audioOutput.isNewOn d
            (controllerNamed "alsa").m_format = true :=
  ⟨⟨⟨"alsa", [pcmFloat44100]⟩, by decide, by decide, rfl⟩,
    (resolveDevice_by_name_or_default twoDevicePlatform (controllerNamed "alsa")).1
      ⟨⟨"alsa", [pcmFloat44100]⟩, by decide, by decide, rfl⟩⟩

/-- C18, as stated, fails: the platform reports "pulse" before "alsa", both
supporting the format, and the names are listed as "alsa", "pulse". -/
theorem availableAudioDevices_not_platform_order :
    (twoDevicePlatform.availableDevices.filter
        (fun d => d.isFormatSupported pcmFloat44100)).map (fun d => d.deviceName)
      = ["pulse", "alsa"]
    ∧ FluidController.availableAudioDevices
        ( FluidController.initAudioDevices twoDevicePlatform (controllerNamed "default"))
      = ["alsa", "pulse"] := by
  have hlt : "alsa" < "pulse" := by
    rw [String.lt_iff_toList_lt]
    decide
  constructor
  · decide
  · simp [FluidController.availableAudioDevices, FluidController.initAudioDevices,
      FluidController.addDevice, twoDevicePlatform, controllerNamed, qmapInsert, qmapKeys,
      Device.isFormatSupported, hlt]

/-- C18, amended: device enumeration lists exactly the names of the platform
devices that support the negotiated format, each name once, in ascending order
of the names (the key order of the map), whatever the platform order was. -/
theorem availableAudioDevices_sorted_names (p : Platform) (c : FluidController) :
    (∀ n, n ∈ FluidController.availableAudioDevices ( FluidController.initAudioDevices p c)
      ↔ ∃ d ∈ p.availableDevices, d.isFormatSupported c.m_format = true ∧ d.deviceName = n)
    ∧ ( FluidController.availableAudioDevices
        ( FluidController.initAudioDevices p c)).Pairwise (· < ·) :=
  initAudioDevices_keys p c

/-! ## Lemmas on the output opened by `initialize` -/

theorem rendererStart_fields (e : Engine) (r : FluidRenderer) :
    ( FluidRenderer.start e r).1.m_format = rendererFormat r
    ∧ ( FluidRenderer.start e r).1.isOpen = true
    ∧ ( FluidRenderer.start e r).1.m_status = ( FluidRenderer.initialize e r).1.m_status := by
  unfold FluidRenderer.start
  exact ⟨(rendererInitialize_format e r).1, rfl, rfl⟩

theorem openOutput_fields (p : Platform) (e : Engine) (c : FluidController) :
    ( FluidController.openOutput p e c).1.m_format = rendererFormat c.m_renderer
    ∧ ( FluidController.openOutput p e c).1.m_requestedBufferTime = c.m_requestedBufferTime
    ∧ ( FluidController.openOutput p e c).1.armPending = c.armPending
    ∧ ( FluidController.openOutput p e c).1.m_renderer
        = ( FluidRenderer.start ( FluidRenderer.initialize e c.m_renderer).2.1
            ( FluidRenderer.initialize e c.m_renderer).1).1 := by
  obtain ⟨h1, h2, h3, h4, -, -⟩ := rendererInitialize_format e c.m_renderer
  have hs := (rendererStart_fields ( FluidRenderer.initialize e c.m_renderer).2.1
    ( FluidRenderer.initialize e c.m_renderer).1).1
  have hfmt : rendererFormat ( FluidRenderer.initialize e c.m_renderer).1
      = rendererFormat c.m_renderer := by
    unfold rendererFormat
    rw [h2, h3, h4]
  rw [hfmt] at hs
  simp only [FluidController.openOutput]
  rw [initAudio_frame]
  simp only []
  obtain ⟨g1, -, -, g4, g5, g6⟩ := initAudioDevices_fields p
    { ({ c with m_renderer := ( FluidRenderer.start ( FluidRenderer.initialize e c.m_renderer).2.1
          ( FluidRenderer.initialize e c.m_renderer).1).1 } : FluidController) with
      m_format := ( FluidRenderer.start ( FluidRenderer.initialize e c.m_renderer).2.1
          ( FluidRenderer.initialize e c.m_renderer).1).1.m_format }
  simp only [] at g1 g4 g5 g6
  exact ⟨g1.trans hs, g4, g5, g6⟩

theorem isNewOn_eq (ptr : AudioPtr) (d : Device) (f : AudioFormat)
    (h : ptr.isNewOn d f = true) :
    ptr = AudioPtr.live { device := d, format := f, bufferSize := 0,
                          state := AudioState.StoppedState, error := AudioError.NoError } := by
  cases ptr with
  | null => simp [AudioPtr.isNewOn] at h
  | deleted => simp [AudioPtr.isNewOn] at h
  | live a =>
    simp only [AudioPtr.isNewOn, decide_eq_true_eq] at h
    rw [h]

/-- When the default device supports the renderer's format, the first part of
`initialize` leaves a new output in that format. -/
theorem openOutput_live (p : Platform) (e : Engine) (c : FluidController)
    (hdev : p.defaultOutputDevice.isFormatSupported (rendererFormat c.m_renderer) = true) :
    ∃ d, ( FluidController.openOutput p e c).1.m_audioOutput
      = AudioPtr.live { device := d, format := rendererFormat c.m_renderer, bufferSize := 0,
                        state := AudioState.StoppedState, error := AudioError.NoError } := by
  obtain ⟨h1, h2, h3, h4, -, -⟩ := rendererInitialize_format e c.m_renderer
  have hs := (rendererStart_fields ( FluidRenderer.initialize e c.m_renderer).2.1
    ( FluidRenderer.initialize e c.m_renderer).1).1
  have hfmt : rendererFormat ( FluidRenderer.initialize e c.m_renderer).1
      = rendererFormat c.m_renderer := by
    unfold rendererFormat
    rw [h2, h3, h4]
  rw [hfmt] at hs
  have key : ∀ c1 : FluidController, c1.m_format = rendererFormat c.m_renderer →
      c1.m_audioDeviceName = c.m_audioDeviceName →
      ∃ d, (resolveDevice p c1).1.m_audioOutput
        = AudioPtr.live { device := d, format := rendererFormat c.m_renderer, bufferSize := 0,
                          state := AudioState.StoppedState, error := AudioError.NoError } := by
    intro c1 hf hn
    obtain ⟨r1, r2⟩ := resolveDevice_cases p c1
    rw [hf, hn] at r1 r2
    by_cases hex : ∃ d ∈ p.availableDevices,
        d.isFormatSupported (rendererFormat c.m_renderer) = true
          ∧ d.deviceName = c.m_audioDeviceName
    · obtain ⟨d, -, -, -, -, hnew⟩ := r1 hex
      exact ⟨d, isNewOn_eq _ _ _ hnew⟩
    · obtain ⟨-, hnew⟩ := r2 hex
      rw [hdev] at hnew
      exact ⟨_, isNewOn_eq _ _ _ hnew⟩
  exact key
    { ({ c with m_renderer := ( FluidRenderer.start ( FluidRenderer.initialize e c.m_renderer).2.1
          ( FluidRenderer.initialize e c.m_renderer).1).1 } : FluidController) with
      m_format := ( FluidRenderer.start ( FluidRenderer.initialize e c.m_renderer).2.1
          ( FluidRenderer.initialize e c.m_renderer).1).1.m_format } hs rfl

/-- The result of `initialize` when the default device supports the
renderer's format: the requested size is set, the output is started, and the
arming lambda is scheduled with the latency of the accepted size. -/
theorem initialize_ok (p : Platform) (e : Engine) (c : FluidController)
    (hdev : p.defaultOutputDevice.isFormatSupported (rendererFormat c.m_renderer) = true) :
    ∃ d, FluidController.initialize p e c = Except.ok
      ({ ( FluidController.openOutput p e c).1 with
          m_audioOutput := AudioPtr.live
            { device := d, format := rendererFormat c.m_renderer,
              bufferSize := p.acceptedBufferSize ((rendererFormat c.m_renderer).bytesForDuration
                (toInt32 (c.m_requestedBufferTime * 1000))),
              state := AudioState.ActiveState, error := AudioError.NoError },
          armPending := c.armPending ++ [Int.tdiv ((rendererFormat c.m_renderer).durationForBytes
            (p.acceptedBufferSize ((rendererFormat c.m_renderer).bytesForDuration
              (toInt32 (c.m_requestedBufferTime * 1000))))) 1000] },
        ( FluidController.openOutput p e c).2.1,
        ( FluidController.openOutput p e c).2.2 ++
          [Effect.audioSetBufferSize ((rendererFormat c.m_renderer).bytesForDuration
              (toInt32 (c.m_requestedBufferTime * 1000))),
            Effect.audioStart,
            Effect.singleShot (toInt32 (Int.tdiv ((rendererFormat c.m_renderer).durationForBytes
              (p.acceptedBufferSize ((rendererFormat c.m_renderer).bytesForDuration
                (toInt32 (c.m_requestedBufferTime * 1000))))) 1000 * 2))]) := by
  obtain ⟨d, hd⟩ := openOutput_live p e c hdev
  obtain ⟨hf, hb, ha, -⟩ := openOutput_fields p e c
  refine ⟨d, ?_⟩
  rw [initialize_eq]
  unfold FluidController.startOutput
  simp only [hd, hf, hb, ha]

/-! ## Buffer size and timers -/

theorem toInt32_of_range (x : Int) (h1 : -2147483648 ≤ x) (h2 : x ≤ 2147483647) :
    toInt32 x = x := by
  unfold toInt32
  omega

theorem rendererFormat_isValid (r : FluidRenderer) (hrate : 0 < r.m_sampleRate)
    (hch : 0 < r.m_channels) (hsz : 0 < r.m_sample_size) :
    (rendererFormat r).isValid = true := by
  have h1 : r.m_sampleRate ≠ -1 := by omega
  have h2 : r.m_channels ≠ -1 := by omega
  have h3 : r.m_sample_size ≠ -1 := by omega
  simp [AudioFormat.isValid, rendererFormat, h1, h2, h3]

/-- The value of `bytesForDuration` on the renderer's format, for a duration
and a result within the `int` range. -/
theorem bytesForDuration_formula (r : FluidRenderer) (ssb duration : Int)
    (hd0 : 0 ≤ duration)
    (hrate : 0 < r.m_sampleRate) (hch : 0 < r.m_channels)
    (hssb : 0 < ssb) (hsize : r.m_sample_size = 8 * ssb)
    (hfr : duration * r.m_sampleRate / 1000000 ≤ 2147483647)
    (hby : duration * r.m_sampleRate / 1000000 * r.m_channels * ssb ≤ 2147483647) :
    (rendererFormat r).bytesForDuration duration
      = duration * r.m_sampleRate / 1000000 * r.m_channels * ssb := by
  have hv := rendererFormat_isValid r hrate hch (by omega)
  have hprod : 0 ≤ duration * r.m_sampleRate := mul_nonneg hd0 (le_of_lt hrate)
  have hfr0 : 0 ≤ duration * r.m_sampleRate / 1000000 := Int.ediv_nonneg hprod (by norm_num)
  have hbpf : Int.tdiv (r.m_sample_size * r.m_channels) 8 = ssb * r.m_channels := by
    rw [hsize, Int.tdiv_eq_ediv (by positivity) (by norm_num)]
    rw [show 8 * ssb * r.m_channels = 8 * (ssb * r.m_channels) by ring]
    exact Int.mul_ediv_cancel_left _ (by norm_num)
  have hframes : toInt32 (Int.tdiv (duration * r.m_sampleRate) 1000000)
      = duration * r.m_sampleRate / 1000000 := by
    rw [Int.tdiv_eq_ediv hprod (by norm_num)]
    exact toInt32_of_range _ (by omega) hfr
  have hres0 : 0 ≤ duration * r.m_sampleRate / 1000000 * r.m_channels * ssb :=
    mul_nonneg (mul_nonneg hfr0 (le_of_lt hch)) (le_of_lt hssb)
  unfold AudioFormat.bytesForDuration AudioFormat.bytesPerFrame AudioFormat.framesForDuration
  rw [hv]
  simp only [if_true]
  show toInt32 (Int.tdiv (r.m_sample_size * r.m_channels) 8
    * toInt32 (Int.tdiv (duration * r.m_sampleRate) 1000000)) = _
  rw [hbpf, hframes]
  rw [show ssb * r.m_channels * (duration * r.m_sampleRate / 1000000)
    = duration * r.m_sampleRate / 1000000 * r.m_channels * ssb by ring]
  exact toInt32_of_range _ (by omega) hby

/-- C13: the buffer size requested by `initialize` is
bytesForDuration(bufferLatencyMs * 1000), which is
floor(bufferLatencyMs * 1000 * sampleRate / 1000000) * channelCount *
sampleSizeBytes while the values stay within the `int` range; for 100 ms at
44100 Hz with 2 channels of 4-byte samples it is 35280 bytes. -/
theorem requested_buffer_size (p : Platform) (e : Engine) (c : FluidController) (ssb : Int)
    (hb0 : 0 ≤ c.m_requestedBufferTime)
    (hb1 : c.m_requestedBufferTime * 1000 ≤ 2147483647)
    (hrate : 0 < c.m_renderer.m_sampleRate) (hch : 0 < c.m_renderer.m_channels)
    (hssb : 0 < ssb) (hsize : c.m_renderer.m_sample_size = 8 * ssb)
    (hfr : c.m_requestedBufferTime * 1000 * c.m_renderer.m_sampleRate / 1000000 ≤ 2147483647)
    (hby : c.m_requestedBufferTime * 1000 * c.m_renderer.m_sampleRate / 1000000
      * c.m_renderer.m_channels * ssb ≤ 2147483647)
    (hdev : p.defaultOutputDevice.isFormatSupported (rendererFormat c.m_renderer) = true) :
    (rendererFormat c.m_renderer).bytesForDuration (c.m_requestedBufferTime * 1000)
      = c.m_requestedBufferTime * 1000 * c.m_renderer.m_sampleRate / 1000000
          * c.m_renderer.m_channels * ssb
    ∧ (∃ c1 e1 before after, FluidController.initialize p e c = Except.ok (c1, e1,
        before ++ Effect.audioSetBufferSize
          (c.m_requestedBufferTime * 1000 * c.m_renderer.m_sampleRate / 1000000
            * c.m_renderer.m_channels * ssb) :: after))
    ∧ pcmFloat44100.bytesForDuration (100 * 1000) = 35280 := by
  have hf := bytesForDuration_formula c.m_renderer ssb (c.m_requestedBufferTime * 1000)
    (by omega) hrate hch hssb hsize hfr hby
  refine ⟨hf, ?_, by decide⟩
  obtain ⟨d, hd⟩ := initialize_ok p e c hdev
  rw [toInt32_of_range _ (by omega) hb1, hf] at hd
  exact ⟨_, _, _, _, hd⟩

theorem requested_buffer_size_witness :
    (0 : Int) ≤ ( FluidController.new 100).m_requestedBufferTime
    ∧ ( FluidController.new 100).m_requestedBufferTime * 1000 ≤ 2147483647
    ∧ onePlatform.defaultOutputDevice.isFormatSupported
        (rendererFormat ( FluidController.new 100).m_renderer) = true
    ∧ ∃ c1 e1 before after,
        FluidController.initialize onePlatform goodEngine ( FluidController.new 100)
          = Except.ok (c1, e1, before ++ Effect.audioSetBufferSize 35280 :: after) :=
  ⟨by decide, by decide, by decide,
    (requested_buffer_size onePlatform goodEngine ( FluidController.new 100) 4
      (by decide) (by decide) (by decide) (by decide) (by decide) (by decide) (by decide)
      (by decide) (by decide)).2.1⟩

theorem rendererFormat_default (r : FluidRenderer)
    (hrate : r.m_sampleRate = DEFAULT_SAMPLERATE)
    (hch : r.m_channels = DEFAULT_FRAME_CHANNELS)
    (hsz : r.m_sample_size = sizeofFloat * CHAR_BIT) :
    rendererFormat r = pcmFloat44100 := by
  unfold rendererFormat pcmFloat44100
  rw [hrate, hch, hsz]
  rfl

/-- The latency in milliseconds of a buffer of `int` size in the format
`pcmFloat44100` is between 0 and 6086971. -/
theorem bufferTime_range (bytes : Int) (h : bytes ≤ 2147483647) :
    0 ≤ Int.tdiv (pcmFloat44100.durationForBytes bytes) 1000
    ∧ Int.tdiv (pcmFloat44100.durationForBytes bytes) 1000 ≤ 6086971 := by
  have hv : pcmFloat44100.isValid = true := by decide
  have hb : pcmFloat44100.bytesPerFrame = 8 := by decide
  have hr : pcmFloat44100.sampleRate = 44100 := rfl
  unfold AudioFormat.durationForBytes
  rw [hv, hb, hr]
  by_cases h0 : bytes ≤ 0
  · simp [h0]
  · have hpos : 0 ≤ bytes := by omega
    simp only [Bool.not_true, Bool.false_or, decide_eq_true_eq, h0, if_false]
    rw [Int.tdiv_eq_ediv hpos (by norm_num)]
    have h8 : 0 ≤ bytes / 8 := Int.ediv_nonneg hpos (by norm_num)
    have e1 : Int.tdiv (1000000 * (bytes / 8)) 44100 = 1000000 * (bytes / 8) / 44100 :=
      Int.tdiv_eq_ediv (by omega) (by norm_num)
    rw [e1]
    have hd : 0 ≤ 1000000 * (bytes / 8) / 44100 := Int.ediv_nonneg (by omega) (by norm_num)
    rw [Int.tdiv_eq_ediv hd (by norm_num)]
    omega

/-- C14: both timers of `initialize` are computed from the buffer size that
the output reports after the start.  With t = durationForBytes(accepted size)
/ 1000, the arming lambda is scheduled after 2 * t ms, and when it fires it
starts the stall detector with an interval of 4 * t ms, for every accepted
size. -/
theorem timers_from_accepted_size (p : Platform) (e : Engine) (c : FluidController)
    (hrate : c.m_renderer.m_sampleRate = DEFAULT_SAMPLERATE)
    (hch : c.m_renderer.m_channels = DEFAULT_FRAME_CHANNELS)
    (hsz : c.m_renderer.m_sample_size = sizeofFloat * CHAR_BIT)
    (hacc : ∀ n, p.acceptedBufferSize n ≤ 2147483647)
    (harm : c.armPending = [])
    (hdev : p.defaultOutputDevice.isFormatSupported pcmFloat44100 = true) :
    ∃ c1 e1 before a,
      FluidController.initialize p e c = Except.ok (c1, e1,
        before ++ [Effect.singleShot
          (2 * Int.tdiv (pcmFloat44100.durationForBytes a.bufferSize) 1000)])
      ∧ c1.m_audioOutput = AudioPtr.live a
      ∧ a.bufferSize = p.acceptedBufferSize
          (pcmFloat44100.bytesForDuration (toInt32 (c.m_requestedBufferTime * 1000)))
      ∧ (armFired c1).1.m_running = true
      ∧ (armFired c1).1.m_stallDetector
          = some (4 * Int.tdiv (pcmFloat44100.durationForBytes a.bufferSize) 1000)
      ∧ (armFired c1).2
          = [Effect.timerStart
              (4 * Int.tdiv (pcmFloat44100.durationForBytes a.bufferSize) 1000)] := by
  have hfmt := rendererFormat_default c.m_renderer hrate hch hsz
  obtain ⟨d, hd⟩ := initialize_ok p e c (by rw [hfmt]; exact hdev)
  rw [hfmt, harm] at hd
  obtain ⟨hr0, hr1⟩ := bufferTime_range (p.acceptedBufferSize
    (pcmFloat44100.bytesForDuration (toInt32 (c.m_requestedBufferTime * 1000)))) (hacc _)
  have h2 : toInt32 (Int.tdiv (pcmFloat44100.durationForBytes (p.acceptedBufferSize
      (pcmFloat44100.bytesForDuration (toInt32 (c.m_requestedBufferTime * 1000))))) 1000 * 2)
      = 2 * Int.tdiv (pcmFloat44100.durationForBytes (p.acceptedBufferSize
      (pcmFloat44100.bytesForDuration (toInt32 (c.m_requestedBufferTime * 1000))))) 1000 := by
    rw [toInt32_of_range _ (by omega) (by omega)]
    ring
  have h4 : toInt32 (Int.tdiv (pcmFloat44100.durationForBytes (p.acceptedBufferSize
      (pcmFloat44100.bytesForDuration (toInt32 (c.m_requestedBufferTime * 1000))))) 1000 * 4)
      = 4 * Int.tdiv (pcmFloat44100.durationForBytes (p.acceptedBufferSize
      (pcmFloat44100.bytesForDuration (toInt32 (c.m_requestedBufferTime * 1000))))) 1000 := by
    rw [toInt32_of_range _ (by omega) (by omega)]
    ring
  rw [h2, show ∀ (t : List Effect) (x y z : Effect), t ++ [x, y, z] = (t ++ [x, y]) ++ [z]
    from fun t x y z => by simp] at hd
  refine ⟨_, _, _,
    { device := d, format := pcmFloat44100,
      bufferSize := p.acceptedBufferSize
        (pcmFloat44100.bytesForDuration (toInt32 (c.m_requestedBufferTime * 1000))),
      state := AudioState.ActiveState, error := AudioError.NoError },
    hd, rfl, rfl, ?_, ?_, ?_⟩
  · simp [armFired]
  · simp only [armFired, List.nil_append]
    rw [h4]
  · simp only [armFired, List.nil_append]
    rw [h4]

theorem timers_from_accepted_size_witness :
    ( FluidController.new 100).m_renderer.m_sampleRate = DEFAULT_SAMPLERATE
    ∧ ( FluidController.new 100).m_renderer.m_channels = DEFAULT_FRAME_CHANNELS
    ∧ ( FluidController.new 100).m_renderer.m_sample_size = sizeofFloat * CHAR_BIT
    ∧ (∀ n, fixedBufferPlatform.acceptedBufferSize n ≤ 2147483647)
    ∧ ( FluidController.new 100).armPending = []
    ∧ fixedBufferPlatform.defaultOutputDevice.isFormatSupported pcmFloat44100 = true
    ∧ ∃ c1 e1 before a,
      FluidController.initialize fixedBufferPlatform goodEngine ( FluidController.new 100)
        = Except.ok (c1, e1, before ++ [Effect.singleShot
            (2 * Int.tdiv (pcmFloat44100.durationForBytes a.bufferSize) 1000)])
      ∧ c1.m_audioOutput = AudioPtr.live a
      ∧ a.bufferSize = fixedBufferPlatform.acceptedBufferSize
          (pcmFloat44100.bytesForDuration
            (toInt32 (( FluidController.new 100).m_requestedBufferTime * 1000)))
      ∧ (armFired c1).1.m_running = true
      ∧ (armFired c1).1.m_stallDetector
          = some (4 * Int.tdiv (pcmFloat44100.durationForBytes a.bufferSize) 1000)
      ∧ (armFired c1).2
          = [Effect.timerStart
              (4 * Int.tdiv (pcmFloat44100.durationForBytes a.bufferSize) 1000)] :=
  ⟨rfl, rfl, rfl, fun _ => (by decide : (32768 : Int) ≤ 2147483647), rfl, by decide,
    timers_from_accepted_size fixedBufferPlatform goodEngine ( FluidController.new 100)
      rfl rfl rfl (fun _ => (by decide : (32768 : Int) ≤ 2147483647)) rfl (by decide)⟩

/-! ## Failures during initialization -/

theorem rendererInitialize_status_of_failed_load (e : Engine) (r : FluidRenderer)
    (hsf : r.m_soundFont ≠ "") (hload : e.sfloadResult r.m_soundFont = -1) :
    ( FluidRenderer.initialize e r).1.m_status = false := by
  unfold FluidRenderer.initialize
  by_cases h2 : e.synthAvailable = true <;> simp [hsf, hload, h2]

theorem openOutput_ioOpen (p : Platform) (e : Engine) (c : FluidController) :
    Effect.ioOpen ∈ ( FluidController.openOutput p e c).2.2 := by
  simp [FluidController.openOutput, FluidRenderer.start]

/-- C19: on a platform without a device that supports the format, `initAudio`
returns without creating an output, and `initialize` goes on to call
`setBufferSize` through the null pointer. -/
theorem initialize_uses_missing_output :
    ( FluidController.openOutput noDevicePlatform goodEngine
        ( FluidController.new 100)).1.m_audioDevice.isFormatSupported
      ( FluidController.openOutput noDevicePlatform goodEngine
        ( FluidController.new 100)).1.m_format = false
    ∧ ( FluidController.openOutput noDevicePlatform goodEngine
        ( FluidController.new 100)).1.m_audioOutput = AudioPtr.null
    ∧ Except.map (fun x => x.2.2)
        ( FluidController.initialize noDevicePlatform goodEngine ( FluidController.new 100))
      = Except.error Fault.badPointer := by
  decide

/-- C20: if the configured soundfont fails to load during initialization (the
load returns -1), `getStatus()` is false afterwards, and the stream is started
all the same: the renderer is open and the audio output is started. -/
theorem failed_load_still_starts (p : Platform) (e : Engine) (c : FluidController)
    (hsf : c.m_renderer.m_soundFont ≠ "")
    (hload : e.sfloadResult c.m_renderer.m_soundFont = -1)
    (hdev : p.defaultOutputDevice.isFormatSupported (rendererFormat c.m_renderer) = true) :
    ∃ c1 e1 t a, FluidController.initialize p e c = Except.ok (c1, e1, t)
      ∧ getStatus c1.m_renderer = false
      ∧ c1.m_renderer.isOpen = true
      ∧ c1.m_audioOutput = AudioPtr.live a ∧ a.state = AudioState.ActiveState
      ∧ Effect.ioOpen ∈ t ∧ Effect.audioStart ∈ t := by
  obtain ⟨d, hd⟩ := initialize_ok p e c hdev
  obtain ⟨-, -, -, hr⟩ := openOutput_fields p e c
  obtain ⟨-, -, -, -, hsf1, hl1⟩ := rendererInitialize_format e c.m_renderer
  obtain ⟨-, hopen, hstat⟩ := rendererStart_fields ( FluidRenderer.initialize e c.m_renderer).2.1
    ( FluidRenderer.initialize e c.m_renderer).1
  have hfalse := rendererInitialize_status_of_failed_load
    ( FluidRenderer.initialize e c.m_renderer).2.1 ( FluidRenderer.initialize e c.m_renderer).1
    (by rw [hsf1]; exact hsf) (by rw [hl1, hsf1]; exact hload)
  refine ⟨_, _, _, _, hd, ?_, ?_, rfl, rfl, ?_, ?_⟩
  · show ( FluidController.openOutput p e c).1.m_renderer.m_status = false
    rw [hr, hstat, hfalse]
  · show ( FluidController.openOutput p e c).1.m_renderer.isOpen = true
    rw [hr, hopen]
  · exact List.mem_append_left _ (openOutput_ioOpen p e c)
  · simp

theorem failed_load_still_starts_witness :
    ( FluidController.readSettings zeroConv (some "/usr/share/soundfonts/default.sf2") []
        ( FluidController.new 100)).m_renderer.m_soundFont ≠ ""
    ∧ failingLoadEngine.sfloadResult
        ( FluidController.readSettings zeroConv (some "/usr/share/soundfonts/default.sf2") []
          ( FluidController.new 100)).m_renderer.m_soundFont = -1
    ∧ ∃ c1 e1 t a,
        FluidController.initialize onePlatform failingLoadEngine
          ( FluidController.readSettings zeroConv (some "/usr/share/soundfonts/default.sf2") []
            ( FluidController.new 100)) = Except.ok (c1, e1, t)
        ∧ getStatus c1.m_renderer = false
        ∧ c1.m_renderer.isOpen = true
        ∧ c1.m_audioOutput = AudioPtr.live a ∧ a.state = AudioState.ActiveState
        ∧ Effect.ioOpen ∈ t ∧ Effect.audioStart ∈ t :=
  ⟨by decide, rfl,
    failed_load_still_starts onePlatform failingLoadEngine _ (by decide) rfl (by decide)⟩

/-! ## Stopping and the timers -/

/-- C11: `initialize()`, then `stop()` before the arming lambda has fired,
then the lambda firing, then one timeout of the stall timer: after `stop()`
the controller becomes running again, the stall timer is started, and
`stallDetected` is raised. -/
theorem stall_raised_after_stop :
    Except.map (fun x => (x.1.m_running, x.1.m_stallDetector, x.2.2))
        (run onePlatform ( FluidController.new 100) goodEngine
          [Event.init, Event.stop, Event.armFires, Event.tick])
      = Except.ok (true, some 400,
          [Effect.newSettings 0, Effect.newSynth (some 0) (some 1),
           Effect.newSettings 2, Effect.newSynth (some 2) (some 3), Effect.ioOpen,
           Effect.audioNew "default" pcmFloat44100,
           Effect.audioSetBufferSize 35280, Effect.audioStart, Effect.singleShot 200,
           Effect.timerStop, Effect.audioStop, Effect.ioClose,
           Effect.deleteSynth 3, Effect.deleteSettings 2,
           Effect.timerStart 400, Effect.stallDetected]) := by
  decide

/-- C12: in `stop()` on a controller whose audio output is live and not yet
stopped, the device stop comes right after the stop of the stall timer and
before every other call; the deletions of the engine and of its settings come
after it. -/
theorem stop_device_before_teardown (c : FluidController) (a : AudioOutput)
    (h : c.m_audioOutput = AudioPtr.live a) (hs : a.state ≠ AudioState.StoppedState) :
    ∃ c1 rest, FluidController.stop c
        = Except.ok (c1, Effect.timerStop :: Effect.audioStop :: rest)
      ∧ (∀ s, c.m_renderer.m_synth = some s → Effect.deleteSynth s ∈ rest)
      ∧ (∀ s, c.m_renderer.m_settings = some s → Effect.deleteSettings s ∈ rest) := by
  rcases c with ⟨r, sd, name, rbt, run, fmt, ptr, avail, dev, dsf, arm⟩
  rcases r with ⟨diag, status, rate, frames, channels, ssize, gain, chorus, reverb, poly,
    settings, synth, sf2, sf, sfid, last, rfmt, isopen⟩
  rcases a with ⟨adev, afmt, asize, astate, aerr⟩
  simp only at h hs
  subst h
  cases astate <;> first | exact absurd rfl hs | skip
  all_goals
    cases settings <;> cases synth <;> cases isopen <;>
      exact ⟨_, _, rfl, by simp, by simp⟩

theorem stop_device_before_teardown_witness :
    runningController.m_audioOutput = AudioPtr.live activeOutput
    ∧ activeOutput.state ≠ AudioState.StoppedState
    ∧ ∃ c1 rest, FluidController.stop runningController
        = Except.ok (c1, Effect.timerStop :: Effect.audioStop :: rest)
      ∧ (∀ s, runningController.m_renderer.m_synth = some s → Effect.deleteSynth s ∈ rest)
      ∧ (∀ s, runningController.m_renderer.m_settings = some s
          → Effect.deleteSettings s ∈ rest) :=
  ⟨rfl, by decide, stop_device_before_teardown runningController activeOutput rfl (by decide)⟩

/-! ## Settings -/

/-- C15: with the sample rate 48000.0 stored under `SampleRate`, as the
settings dialog stores it, `readSettings` followed by `stop()` and
`initialize()` leaves `m_sampleRate` at 44100 and negotiates the 44100 Hz
format. -/
theorem sample_rate_setting_ignored :
    Except.map (fun x => (x.1.m_renderer.m_sampleRate, x.1.m_format))
        (backendInitialize zeroConv none
          [(QSTR_SAMPLERATE, QVariant.double { bits := 0x40E7700000000000 })]
          onePlatform goodEngine ( FluidController.new 100))
      = Except.ok (44100, pcmFloat44100) := by
  decide

/-- C16: with the key `SampleRate` present, holding 48000.0, and every other
key absent, `readSettings` loads the defaults for the absent keys (latency 100,
chorus 0, reverb 1, gain 1.0, polyphony 256, device name "default") and leaves
the sample rate at 44100 instead of loading the stored value. -/
theorem readSettings_skips_sample_rate :
    ( FluidController.readSettings zeroConv none
        [(QSTR_SAMPLERATE, QVariant.double { bits := 0x40E7700000000000 })]
        ( FluidController.new 0)).m_renderer.m_sampleRate = 44100
    ∧ (( FluidController.readSettings zeroConv none
        [(QSTR_SAMPLERATE, QVariant.double { bits := 0x40E7700000000000 })]
        ( FluidController.new 0)).m_requestedBufferTime,
       ( FluidController.readSettings zeroConv none
        [(QSTR_SAMPLERATE, QVariant.double { bits := 0x40E7700000000000 })]
        ( FluidController.new 0)).m_renderer.m_chorus,
       ( FluidController.readSettings zeroConv none
        [(QSTR_SAMPLERATE, QVariant.double { bits := 0x40E7700000000000 })]
        ( FluidController.new 0)).m_renderer.m_reverb,
       ( FluidController.readSettings zeroConv none
        [(QSTR_SAMPLERATE, QVariant.double { bits := 0x40E7700000000000 })]
        ( FluidController.new 0)).m_renderer.m_gain,
       ( FluidController.readSettings zeroConv none
        [(QSTR_SAMPLERATE, QVariant.double { bits := 0x40E7700000000000 })]
        ( FluidController.new 0)).m_renderer.m_polyphony,
       ( FluidController.readSettings zeroConv none
        [(QSTR_SAMPLERATE, QVariant.double { bits := 0x40E7700000000000 })]
        ( FluidController.new 0)).m_audioDeviceName)
      = (100, 0, 1, DEFAULT_GAIN, 256, "default") := by
  decide

/-! ## The render calls of a pull -/

theorem quantumCalls_length (synth : Option Nat) (n : Nat) :
    (quantumCalls synth n).length = n := by
  simp [quantumCalls]

theorem quantumCalls_get (synth : Option Nat) (n k : Nat) (hk : k < n) :
    (quantumCalls synth n)[k]? = some (Effect.synthWriteFloat synth 64 (128 * (k : Int)) 0 2 1 2) := by
  simp [quantumCalls, List.getElem?_map, List.getElem?_range hk]

theorem quantumCalls_get_some (synth : Option Nat) (n k : Nat) (call : Effect)
    (h : (quantumCalls synth n)[k]? = some call) :
    k < n ∧ call = Effect.synthWriteFloat synth 64 (128 * (k : Int)) 0 2 1 2 := by
  have hk : k < n := by
    have := (List.getElem?_eq_some_iff.mp h).1
    rwa [quantumCalls_length] at this
  rw [quantumCalls_get synth n k hk] at h
  exact ⟨hk, (Option.some.inj h).symm⟩

/-- The bytes written by render call `k` of a pull are those of the range
from `512 * k` up to, not including, `512 * (k + 1)`. -/
theorem quantum_writesByte (synth : Option Nat) (k : Nat) (b : Int) :
    writesByte (Effect.synthWriteFloat synth 64 (128 * (k : Int)) 0 2 1 2) b
      ↔ 512 * (k : Int) ≤ b ∧ b < 512 * ((k : Int) + 1) := by
  have h64 : (64 : Int).toNat = 64 := by decide
  have h4 : sizeofFloat = 4 := rfl
  simp only [writesByte, writtenFloats, h64, h4, List.mem_append, List.mem_map, List.mem_range]
  constructor
  · rintro (⟨i, hi, h⟩ | ⟨i, hi, h⟩) <;> omega
  · rintro ⟨h1, h2⟩
    rcases Int.emod_two_eq_zero_or_one (b / 4) with hpar | hpar
    · left
      refine ⟨((b / 4 - 128 * (k : Int)) / 2).toNat, ?_, ?_⟩ <;> omega
    · right
      refine ⟨((b / 4 - 128 * (k : Int)) / 2).toNat, ?_, ?_⟩ <;> omega

/-- C21: for every L >= Q = 512 the loop of `readData` ends after exactly
floor(L / Q) render calls, each of 64 frames.  Call k is made at byte offset
k * Q and writes exactly the bytes from k * Q up to, not including,
(k + 1) * Q; every such range lies within the L bytes of the buffer, no byte
is written by two calls, and together the calls write exactly the first
floor(L / Q) * Q bytes. -/
theorem readData_render_calls (qtDebug : Bool) (r : FluidRenderer) (L : Int)
    (hf : r.m_renderingFrames = DEFAULT_RENDERING_FRAMES)
    (hc : r.m_channels = DEFAULT_FRAME_CHANNELS)
    (hL : quantumBytes ≤ L) :
    ∃ r1 calls,
      readData qtDebug r L = Except.ok (r1, L / quantumBytes * quantumBytes, calls)
      ∧ calls.length = (L / quantumBytes).toNat
      ∧ (∀ k : Nat, k < (L / quantumBytes).toNat →
          calls[k]? = some (Effect.synthWriteFloat r.m_synth 64 (128 * (k : Int)) 0 2 1 2)
          ∧ sizeofFloat * (128 * (k : Int)) = (k : Int) * quantumBytes
          ∧ (∀ b, writesByte (Effect.synthWriteFloat r.m_synth 64 (128 * (k : Int)) 0 2 1 2) b
              ↔ (k : Int) * quantumBytes ≤ b ∧ b < ((k : Int) + 1) * quantumBytes)
          ∧ 0 ≤ (k : Int) * quantumBytes ∧ ((k : Int) + 1) * quantumBytes ≤ L)
      ∧ (∀ (k1 k2 : Nat) (c1 c2 : Effect) (b : Int),
          calls[k1]? = some c1 → calls[k2]? = some c2 →
          writesByte c1 b → writesByte c2 b → k1 = k2)
      ∧ (∀ b, (∃ call ∈ calls, writesByte call b)
          ↔ 0 ≤ b ∧ b < L / quantumBytes * quantumBytes) := by
  have hQ : quantumBytes = 512 := by decide
  have h4 : sizeofFloat = 4 := rfl
  rw [hQ] at hL ⊢
  have h0 : 0 ≤ L := by omega
  have hq : 0 ≤ L / 512 := Int.ediv_nonneg h0 (by norm_num)
  have hn : ((L / 512).toNat : Int) = L / 512 := Int.toNat_of_nonneg hq
  have hle : L / 512 * 512 ≤ L := Int.ediv_mul_le L (by norm_num)
  refine ⟨_, _, readData_default qtDebug r L hf hc h0 (fun _ => hL),
    quantumCalls_length _ _, ?_, ?_, ?_⟩
  · intro k hk
    refine ⟨quantumCalls_get _ _ k hk, by rw [h4]; ring, ?_, by positivity, by omega⟩
    intro b
    rw [quantum_writesByte]
    constructor <;> rintro ⟨h1, h2⟩ <;> constructor <;> omega
  · intro k1 k2 c1 c2 b hc1 hc2 hw1 hw2
    obtain ⟨-, rfl⟩ := quantumCalls_get_some _ _ _ _ hc1
    obtain ⟨-, rfl⟩ := quantumCalls_get_some _ _ _ _ hc2
    rw [quantum_writesByte] at hw1 hw2
    omega
  · intro b
    constructor
    · rintro ⟨call, hmem, hw⟩
      obtain ⟨k, hk⟩ := List.getElem?_of_mem hmem
      obtain ⟨hkn, rfl⟩ := quantumCalls_get_some _ _ _ _ hk
      rw [quantum_writesByte] at hw
      omega
    · rintro ⟨hb0, hb1⟩
      have hk : (b / 512).toNat < (L / 512).toNat := by omega
      refine ⟨_, List.getElem?_mem (quantumCalls_get r.m_synth _ _ hk), ?_⟩
      rw [quantum_writesByte]
      omega

theorem readData_render_calls_witness :
    FluidRenderer.new.m_renderingFrames = DEFAULT_RENDERING_FRAMES
    ∧ FluidRenderer.new.m_channels = DEFAULT_FRAME_CHANNELS
    ∧ quantumBytes ≤ 1030
    ∧ ∃ r1 calls,
      readData true FluidRenderer.new 1030
        = Except.ok (r1, 1030 / quantumBytes * quantumBytes, calls)
      ∧ calls.length = ((1030 : Int) / quantumBytes).toNat :=
  ⟨rfl, rfl, by decide,
    (readData_render_calls true FluidRenderer.new 1030 rfl rfl (by decide)).imp
      (fun _ h => h.imp (fun _ h2 => ⟨h2.1, h2.2.1⟩))⟩

/-! ## Engine objects and status across sessions -/

/-- C22: a first session with the soundfont "a.sf2", which loads, followed by
a second one with an empty soundfont path: the second initialization makes no
load call, and `getStatus()` is true after it, from the id left in `m_sfid` by
the first session. -/
theorem status_true_with_empty_soundfont :
    Except.map
        (fun x => (x.1.m_renderer.m_soundFont, getStatus x.1.m_renderer, x.1.m_renderer.m_sfid,
          x.2.2.filter (fun y => match y with | Effect.sfload _ _ _ => true | _ => false)))
        (reconfigure zeroConv (soundFontSettings "a.sf2") (soundFontSettings "")
          onePlatform goodEngine ( FluidController.new 100))
      = Except.ok ("", true, 1, []) := by
  decide

/-- C23: one call of `initialize()` followed by `stop()`: the trace holds two
settings creations and two engine creations, of the objects 0, 1, 2 and 3, and
`stop()` deletes the objects 3 and 2 only. -/
theorem initialize_creates_engine_twice :
    Except.map
        (fun x => (settingsCreations x.2.2, synthCreations x.2.2, createdHandles x.2.2))
        ( FluidController.initialize onePlatform goodEngine ( FluidController.new 100))
      = Except.ok (2, 2, [0, 1, 2, 3])
    ∧ Except.map (fun x => (createdHandles x.2.2, deletedHandles x.2.2))
        (run onePlatform ( FluidController.new 100) goodEngine [Event.init, Event.stop])
      = Except.ok ([0, 1, 2, 3], [3, 2]) := by
  constructor <;> decide

/-! ## Lemmas on the stall timer -/

theorem openOutput_timer (p : Platform) (e : Engine) (c : FluidController) :
    ( FluidController.openOutput p e c).1.m_running = c.m_running
    ∧ ( FluidController.openOutput p e c).1.m_stallDetector = c.m_stallDetector := by
  simp only [FluidController.openOutput]
  rw [initAudio_frame, initAudioDevices_frame]
  exact ⟨rfl, rfl⟩

/-- The function `initialize` changes neither `m_running` nor the stall timer. -/
theorem initialize_timer (p : Platform) (e : Engine) (c c1 : FluidController) (e1 : Engine)
    (t : List Effect) (h : FluidController.initialize p e c = Except.ok (c1, e1, t)) :
    c1.m_running = c.m_running ∧ c1.m_stallDetector = c.m_stallDetector := by
  obtain ⟨h1, h2⟩ := openOutput_timer p e c
  rw [initialize_eq] at h
  unfold FluidController.startOutput at h
  cases hp : ( FluidController.openOutput p e c).1.m_audioOutput with
  | null => simp [hp] at h
  | deleted => simp [hp] at h
  | live a =>
    simp only [hp, Except.ok.injEq, Prod.mk.injEq] at h
    obtain ⟨hc, -, -⟩ := h
    rw [← hc]
    exact ⟨h1, h2⟩

/-- After `stop()` the stall timer is not active. -/
theorem stop_timer (c c1 : FluidController) (t : List Effect)
    (h : FluidController.stop c = Except.ok (c1, t)) : c1.m_stallDetector = none := by
  rcases c with ⟨r, sd, name, rbt, run, fmt, ptr, avail, dev, dsf, arm⟩
  cases ptr with
  | deleted => simp [FluidController.stop] at h
  | null =>
    simp only [FluidController.stop, Except.ok.injEq, Prod.mk.injEq] at h
    rw [← h.1]
    rfl
  | live a =>
    by_cases hs : a.state = AudioState.StoppedState
    · simp only [FluidController.stop, hs, ne_eq, not_true_eq_false, if_false,
        Except.ok.injEq, Prod.mk.injEq] at h
      rw [← h.1]
      rfl
    · simp only [FluidController.stop, hs, ne_eq, not_false_eq_true, if_true,
        Except.ok.injEq, Prod.mk.injEq] at h
      rw [← h.1]
      rfl

/-- Every action keeps the property that the stall timer is active only while
`m_running` holds. -/
theorem act_timer (qtDebug : Bool) (p : Platform) (c c1 : FluidController) (e e1 : Engine)
    (t : List Effect) (a : Action)
    (hinv : c.m_stallDetector ≠ none → c.m_running = true)
    (h : act qtDebug p c e a = Except.ok (c1, e1, t)) :
    c1.m_stallDetector ≠ none → c1.m_running = true := by
  cases a with
  | pull len =>
    simp only [act] at h
    by_cases ho : c.m_renderer.isOpen = true
    · rw [if_pos ho] at h
      cases hr : readData qtDebug c.m_renderer len with
      | error f => simp [hr] at h
      | ok x =>
        obtain ⟨r1, n, calls⟩ := x
        simp only [hr, Except.ok.injEq, Prod.mk.injEq] at h
        rw [← h.1]
        exact hinv
    · rw [if_neg ho] at h
      simp only [Except.ok.injEq, Prod.mk.injEq] at h
      rw [← h.1]
      exact hinv
  | event ev =>
    cases ev with
    | init =>
      obtain ⟨h1, h2⟩ := initialize_timer p e c c1 e1 t h
      rw [h1, h2]
      exact hinv
    | stop =>
      simp only [act, step] at h
      cases hs : FluidController.stop c with
      | error f => simp [hs] at h
      | ok x =>
        obtain ⟨c2, t2⟩ := x
        simp only [hs, Except.ok.injEq, Prod.mk.injEq] at h
        intro hne
        rw [← h.1] at hne
        exact absurd (stop_timer c c2 t2 hs) hne
    | armFires =>
      simp only [act, step, Except.ok.injEq, Prod.mk.injEq] at h
      rw [← h.1]
      unfold armFired
      cases harm : c.armPending with
      | nil => exact hinv
      | cons b rest => intro _; rfl
    | tick =>
      simp only [act, step] at h
      by_cases ht : c.m_stallDetector ≠ none
      · rw [if_pos ht] at h
        simp only [Except.ok.injEq, Prod.mk.injEq] at h
        rw [← h.1]
        unfold stallTick
        by_cases hr : c.m_running = true
        · rw [if_pos hr]
          intro _
          exact hr
        · rw [if_neg hr]
          exact hinv
      · rw [if_neg ht] at h
        simp only [Except.ok.injEq, Prod.mk.injEq] at h
        rw [← h.1]
        exact hinv

theorem runActions_timer (qtDebug : Bool) (p : Platform) (actions : List Action) :
    ∀ (c c1 : FluidController) (e e1 : Engine) (t : List Effect),
      (c.m_stallDetector ≠ none → c.m_running = true) →
      runActions qtDebug p c e actions = Except.ok (c1, e1, t) →
      c1.m_stallDetector ≠ none → c1.m_running = true := by
  induction actions with
  | nil =>
    intro c c1 e e1 t hinv h
    simp only [runActions, Except.ok.injEq, Prod.mk.injEq] at h
    rw [← h.1]
    exact hinv
  | cons a rest ih =>
    intro c c1 e e1 t hinv h
    unfold runActions at h
    cases ha : act qtDebug p c e a with
    | error f => simp [ha] at h
    | ok x =>
      obtain ⟨c2, e2, t2⟩ := x
      simp only [ha] at h
      cases hr : runActions qtDebug p c2 e2 rest with
      | error f => simp [hr] at h
      | ok y =>
        obtain ⟨c3, e3, t3⟩ := y
        simp only [hr, Except.ok.injEq, Prod.mk.injEq] at h
        rw [← h.1]
        exact ih c2 c3 e2 e3 t3 (act_timer qtDebug p c c2 e e2 t2 a hinv ha) hr

/-- In every state reached from a constructed controller the stall timer is
active only while `m_running` holds. -/
theorem reached_timer (qtDebug : Bool) (p : Platform) (bufTime : Int) (e : Engine)
    (actions : List Action) (c1 : FluidController)
    (hreach : Except.map (fun x => x.1)
      (runActions qtDebug p ( FluidController.new bufTime) e actions) = Except.ok c1)
    (htimer : c1.m_stallDetector ≠ none) : c1.m_running = true := by
  cases hr : runActions qtDebug p ( FluidController.new bufTime) e actions with
  | error f => simp [hr, Except.map] at hreach
  | ok x =>
    obtain ⟨c2, e2, t2⟩ := x
    simp only [hr, Except.map, Except.ok.injEq] at hreach
    subst hreach
    exact runActions_timer qtDebug p actions _ _ e e2 t2 (fun h => absurd rfl h) hr htimer

/-! ## Ticks and pulls in reachable states -/

/-- C6: every stall-detector tick resets the counter to 0, whether or not the
stall condition held.  A tick is a timeout of the stall timer, so it is taken
in a state in which the timer is active; in every state that a constructed
controller reaches through calls of `initialize()` and `stop()`, firings of the
arming lambda, ticks and pulls, the tick is the lambda `stallTick`, and the
counter is 0 after it for every counter value before it. -/
theorem tick_resets_counter (qtDebug : Bool) (p : Platform) (bufTime : Int) (e : Engine)
    (actions : List Action) (c1 : FluidController)
    (hreach : Except.map (fun x => x.1)
      (runActions qtDebug p ( FluidController.new bufTime) e actions) = Except.ok c1)
    (htimer : c1.m_stallDetector ≠ none) :
    lastBufferSize (stallTick c1).1.m_renderer = 0
    ∧ ∀ e1, step p c1 e1 Event.tick = Except.ok ((stallTick c1).1, e1, (stallTick c1).2) := by
  have hrun := reached_timer qtDebug p bufTime e actions c1 hreach htimer
  constructor
  · unfold stallTick
    rw [if_pos hrun]
    rfl
  · intro e1
    simp only [step]
    rw [if_pos htimer]

theorem tick_resets_counter_witness :
    Except.map (fun x => x.1)
        (runActions true onePlatform ( FluidController.new 100) goodEngine
          [Action.event Event.init, Action.event Event.armFires, Action.pull 1024])
      = Except.ok pulledController
    ∧ pulledController.m_stallDetector ≠ none
    ∧ lastBufferSize pulledController.m_renderer = 1024
    ∧ lastBufferSize (stallTick pulledController).1.m_renderer = 0 :=
  ⟨by decide, by decide, rfl,
    (tick_resets_counter true onePlatform 100 goodEngine
      [Action.event Event.init, Action.event Event.armFires, Action.pull 1024]
      pulledController (by decide) (by decide)).1⟩

/-- C4: when `new_fluid_synth` fails, `initialize()` leaves `m_synth` null
with the renderer open and the audio output started, and the next pull of 512
bytes makes a render call that passes the null pointer to the engine.  The
trace records the call; what the engine does with a null pointer is not part
of the model. -/
theorem readData_calls_engine_with_null_synth (qtDebug : Bool) :
    Except.map (fun x => (x.1.m_renderer.m_synth, x.1.m_renderer.isOpen, x.2.2))
        (runActions qtDebug onePlatform ( FluidController.new 100) noSynthEngine
          [Action.event Event.init, Action.pull 512])
      = Except.ok (none, true,
          [Effect.newSettings 0, Effect.newSynth (some 0) none,
           Effect.newSettings 1, Effect.newSynth (some 1) none, Effect.ioOpen,
           Effect.audioNew "default" pcmFloat44100,
           Effect.audioSetBufferSize 35280, Effect.audioStart, Effect.singleShot 200,
           Effect.synthWriteFloat none 64 0 0 2 1 2]) := by
  cases qtDebug <;> decide

end FluidLite
